import Mathlib

/-!
# Verification of the quickbeam Pattern Recognition & Action Resolution Engine

A shallow embedding, in Lean 4, of the core of the quickbeam repository:

* `PatternRecognitionEngine` (detectors, confidence scoring, conflict
  resolution) from `src/content` (source file `part_011`), and
* `ActionButtonManager` (action catalog and resolver) from `src/content`
  (source file `part_000`).

JavaScript numbers used for confidences are modelled as rationals (`ℚ`);
string indices are codepoint indices (every character in the patterns and in
the inputs considered here lies in the Basic Multilingual Plane, where
UTF-16 code-unit indices and codepoint indices agree).  JavaScript regular
expressions are modelled by an explicit syntax tree together with a
backtracking matcher that follows the ECMAScript semantics relevant to the
patterns of this code base: leftmost search, left-biased alternation, greedy
quantifiers with the no-empty-iteration rule, word boundaries, anchors,
capture groups, the `i` flag, and — crucially — the `lastIndex` behaviour of
`RegExp.prototype.exec`, which advances only for regexes carrying the `g`
flag.  `while ((match = pattern.exec(text)) !== null)` loops are therefore
modelled with an explicit iteration budget ("fuel"): a result `none` means
the loop did not finish within the given number of iterations, and a result
that is `none` for every budget means the source loop never terminates.
-/

namespace Quickbeam

/-! ## Data model (`src/types/index.ts`) -/

/-- `PatternType` enumeration. -/
inductive PatternType
  | address
  | phone
  | email
  | dateTime
  | trackingNumber
  | currency
  | unit
  | url
  deriving DecidableEq, Repr

/-- Values stored in a `PatternMatch.metadata` record (`Record<string, any>`
in the source).  Only the shapes the engine actually stores appear. -/
inductive MetaVal
  | str (s : String)
  | num (q : ℚ)
  | numOrNaN (q : Option ℚ)
  | boolean (b : Bool)
  | strList (l : List String)
  | numPairs (l : List (String × ℚ))
  | strPairs (l : List (String × String))
  | undef
  deriving DecidableEq, Repr

/-- `PatternMatch`.  The source field `match` is a Lean keyword and is
renamed `text` here. -/
structure PatternMatch where
  type : PatternType
  text : String
  confidence : ℚ
  startIndex : Nat
  endIndex : Nat
  metadata : List (String × MetaVal)
  deriving DecidableEq, Repr

/-! ## Conflict resolution (`sortAndDeduplicatePatterns`, part_011) -/

/-- `patternsOverlap` (part_011): `!(a.endIndex <= b.startIndex || b.endIndex <= a.startIndex)`. -/
def patternsOverlap (a b : PatternMatch) : Bool :=
  !(decide (a.endIndex ≤ b.startIndex) || decide (b.endIndex ≤ a.startIndex))

/-- Stable insertion used to model `patterns.sort((a, b) => b.confidence - a.confidence)`
(`Array.prototype.sort` is stable per ES2019; the comparator orders by
confidence descending, ties keeping source order).  The element is placed
before the first element of strictly smaller confidence. -/
def insertByConfidence (m : PatternMatch) : List PatternMatch → List PatternMatch
  | [] => [m]
  | x :: xs => if m.confidence < x.confidence then x :: insertByConfidence m xs else m :: x :: xs

/-- Stable sort by confidence descending (see `insertByConfidence`). -/
def sortByConfidenceDesc : List PatternMatch → List PatternMatch
  | [] => []
  | x :: xs => insertByConfidence x (sortByConfidenceDesc xs)

/-- One iteration of the `for (const pattern of sorted)` loop in
`sortAndDeduplicatePatterns`: the candidate is appended only when it
overlaps no already-accepted pattern. -/
def dedupeStep (deduplicated : List PatternMatch) (pattern : PatternMatch) : List PatternMatch :=
  if deduplicated.any (fun existing => patternsOverlap pattern existing) then deduplicated
  else deduplicated ++ [pattern]

/-- `sortAndDeduplicatePatterns` (part_011 lines 512–534). -/
def sortAndDeduplicatePatterns (patterns : List PatternMatch) : List PatternMatch :=
  (sortByConfidenceDesc patterns).foldl dedupeStep []

/-! ## Action catalog and resolver (`ActionButtonManager`, part_000) -/

/-- `ActionType` enumeration (`src/types/index.ts`). -/
inductive ActionType
  | mapIt
  | email
  | calendar
  | trackPackage
  | call
  | message
  | copy
  | search
  | convert
  | translate
  | define
  | quickNote
  | share
  deriving DecidableEq, Repr

/-- `QuickAction`.  The side-effecting `execute` closure (opens a URL, writes
the clipboard) is outside the shallow embedding and is not modelled; all
data fields are. -/
structure QuickAction where
  id : String
  name : String
  description : String
  icon : String
  type : ActionType
  enabled : Bool
  deriving DecidableEq, Repr

/-- `FEATURE_FLAGS.AI_PARSING` (part_000, constants): `false`. -/
def FEATURE_FLAGS_AI_PARSING : Bool := false

/-- The catalog built by `initializeActionFactories` + `createDefaultActions`
(part_000): one `QuickAction` per `ActionType`, in factory insertion order,
which is also the iteration order of the `availableActions` Map. -/
def defaultActions : List QuickAction :=
  [ ⟨"map_it", "Map It", "Open selected address in Google Maps", "🗺️", ActionType.mapIt, true⟩
  , ⟨"email", "Compose Email", "Compose email to selected address", "✉️", ActionType.email, true⟩
  , ⟨"calendar", "Add to Calendar", "Add event to calendar", "📅", ActionType.calendar,
      FEATURE_FLAGS_AI_PARSING⟩
  , ⟨"track_package", "Track Package", "Track package with selected number", "📦",
      ActionType.trackPackage, true⟩
  , ⟨"call", "Call", "Call selected phone number", "📞", ActionType.call, true⟩
  , ⟨"message", "Message", "Send message to selected phone number", "💬", ActionType.message, true⟩
  , ⟨"copy", "Copy", "Copy selected text to clipboard", "📋", ActionType.copy, true⟩
  , ⟨"search", "Search", "Search for selected text", "🔍", ActionType.search, true⟩
  , ⟨"convert", "Convert", "Convert selected value", "🔄", ActionType.convert, true⟩
  , ⟨"translate", "Translate", "Translate selected text", "🌐", ActionType.translate, true⟩
  , ⟨"define", "Define", "Look up definition of selected text", "📚", ActionType.define, true⟩
  , ⟨"quick_note", "Quick Note", "Create a quick note or task", "📝", ActionType.quickNote, true⟩
  , ⟨"share", "Share", "Share selected text on social media", "📤", ActionType.share, true⟩ ]

/-- `this.availableActions.get(t)`: lookup by action type (keys are unique). -/
def getAction (available : List QuickAction) (t : ActionType) : Option QuickAction :=
  available.find? (fun a => a.type == t)

/-- `getActionForPattern` (part_000 lines 313–343).  Note the PHONE case:
despite the source comment `// Return both actions for phone numbers`, the
returned value is `callAction || messageAction || null`, i.e. a single
action (the CALL one whenever it exists in the catalog, regardless of its
`enabled` flag). -/
def getActionForPattern (available : List QuickAction) (pattern : PatternMatch) :
    Option QuickAction :=
  match pattern.type with
  | PatternType.address => getAction available ActionType.mapIt
  | PatternType.email => getAction available ActionType.email
  | PatternType.phone =>
      (getAction available ActionType.call).orElse (fun _ => getAction available ActionType.message)
  | PatternType.dateTime => getAction available ActionType.calendar
  | PatternType.trackingNumber => getAction available ActionType.trackPackage
  | PatternType.currency => getAction available ActionType.convert
  | PatternType.unit => getAction available ActionType.convert
  | PatternType.url =>
      -- `default:` arm of the source switch (URL is the only type it can reach)
      (getAction available ActionType.quickNote).orElse
        (fun _ => getAction available ActionType.share)

/-- Helper for the two `if (xAction && xAction.enabled) actions.push(xAction)`
statements of `getAvailableActions`. -/
def pushIfEnabled (found : Option QuickAction) : List QuickAction :=
  match found with
  | some a => if a.enabled then [a] else []
  | none => []

/-- `getAvailableActions` (part_000 lines 282–311). -/
def getAvailableActions (isInitialized : Bool) (available : List QuickAction)
    (patterns : List PatternMatch) : List QuickAction :=
  if isInitialized = false then []
  else
    let allActions := available
    let copyAction := allActions.find? (fun a => a.type == ActionType.copy)
    let searchAction := allActions.find? (fun a => a.type == ActionType.search)
    let actions := pushIfEnabled copyAction ++ pushIfEnabled searchAction
    patterns.foldl
      (fun actions pattern =>
        match getActionForPattern available pattern with
        | some action =>
            if action.enabled && !(actions.any fun a => a.id == action.id) then
              actions ++ [action]
            else actions
        | none => actions)
      actions

/-- `updateActionAvailability` (part_000 lines 912–917). -/
def updateActionAvailability (available : List QuickAction) (t : ActionType) (enabled : Bool) :
    List QuickAction :=
  available.map (fun a => if a.type == t then { a with enabled := enabled } else a)

/-- `updateActionAvailabilityFromPreferences` (part_000 lines 927–938): every
catalog action's `enabled` flag becomes `enabledActions.includes(action.id)`. -/
def updateActionAvailabilityFromPreferences (available : List QuickAction)
    (enabledActions : List String) : List QuickAction :=
  available.map (fun a => { a with enabled := enabledActions.contains a.id })

/-! ## The try/catch of `detectPatterns` (part_011 lines 174–228)

`detectPatterns` runs all eight detector families inside one `try` block and
appends their candidates; the `catch` logs and returns `[]`.  To reason about
a detector that throws, the eight calls are abstracted by their outcomes
(`Except` = JS exception): -/

/-- The candidate-collection phase of `detectPatterns`: detector outcomes are
processed left to right, and a thrown error aborts the whole sequence (the
single `try` spans every detector call). -/
def collectCandidates : List (Except String (List PatternMatch)) →
    Except String (List PatternMatch)
  | [] => Except.ok []
  | Except.error e :: _ => Except.error e
  | Except.ok ms :: rest => (collectCandidates rest).map (fun t => ms ++ t)

/-- Control flow of `detectPatterns` around its detector calls: on success the
candidates are sorted and deduplicated; a throw anywhere is caught by the
surrounding `catch`, which returns `[]`. -/
def detectPatternsTryCatch (outcomes : List (Except String (List PatternMatch))) :
    List PatternMatch :=
  match collectCandidates outcomes with
  | Except.ok patterns => sortAndDeduplicatePatterns patterns
  | Except.error _ => []

/-! ## ECMAScript regular expressions

A syntax tree for the regex subset the source uses, and a backtracking
matcher following the ECMAScript evaluation order: alternation is
left-biased, quantifiers are greedy, and an optional quantifier iteration
that consumes nothing ends the iteration (the ECMAScript no-empty-loop
rule).  The list returned by `matchRe` holds every way the node can match,
most preferred first, so `.head?` is the match the JS engine picks. -/

/-- An item of a character class `[...]`. -/
inductive ClassItem
  | one (c : Char)
  | range (lo hi : Char)
  | dcls              -- \d inside a class
  | scls              -- \s inside a class
  | wcls              -- \w inside a class
  deriving DecidableEq, Repr

/-- Regular-expression syntax.  In `rep r min extra`, `min` is the number of
mandatory iterations and `extra` the number of further optional greedy
iterations (`none` = unbounded): `r*` is `rep r 0 none`, `r+` is
`rep r 1 none`, `r?` is `rep r 0 (some 1)`, `r{n}` is `rep r n (some 0)`,
`r{m,n}` is `rep r m (some (n-m))`, `r{m,}` is `rep r m none`. -/
inductive Regex
  | eps
  | ch (c : Char)
  | cc (neg : Bool) (items : List ClassItem)
  | dig | ndig        -- \d \D
  | spc | nspc        -- \s \S
  | wrd | nwrd        -- \w \W
  | bol | eol         -- ^ $ (no pattern in the source carries the m flag)
  | wordB             -- \b
  | cat (r1 r2 : Regex)
  | alt (r1 r2 : Regex)
  | group (idx : Nat) (r : Regex)
  | rep (r : Regex) (min : Nat) (extra : Option Nat)
  deriving DecidableEq, Repr

/-- `\w` (also used by `\b`): `[A-Za-z0-9_]`. -/
def isWordChar (c : Char) : Bool :=
  c.isAlpha || c.isDigit || c == '_'

/-- ECMAScript WhiteSpace ∪ LineTerminator, the `\s` set. -/
def isJsSpace (c : Char) : Bool :=
  c == ' ' || c == '\t' || c == '\n' || c == '\r' ||
  c == Char.ofNat 0x0B || c == Char.ofNat 0x0C || c == Char.ofNat 0xA0 ||
  c == Char.ofNat 0x1680 ||
  (decide (Char.ofNat 0x2000 ≤ c) && decide (c ≤ Char.ofNat 0x200A)) ||
  c == Char.ofNat 0x2028 || c == Char.ofNat 0x2029 || c == Char.ofNat 0x202F ||
  c == Char.ofNat 0x205F || c == Char.ofNat 0x3000 || c == Char.ofNat 0xFEFF

/-- Character comparison under the optional `i` flag (ASCII canonicalisation). -/
def charMatches (ci : Bool) (pat input : Char) : Bool :=
  pat == input || (ci && (pat.toLower == input.toLower))

def classItemMatches (ci : Bool) (item : ClassItem) (c : Char) : Bool :=
  match item with
  | ClassItem.one p => charMatches ci p c
  | ClassItem.range lo hi =>
      (decide (lo ≤ c) && decide (c ≤ hi)) ||
      (ci && ((decide (lo ≤ c.toLower) && decide (c.toLower ≤ hi)) ||
              (decide (lo ≤ c.toUpper) && decide (c.toUpper ≤ hi))))
  | ClassItem.dcls => c.isDigit
  | ClassItem.scls => isJsSpace c
  | ClassItem.wcls => isWordChar c

/-- Matcher state: absolute index, the character before it (for `\b`), the
rest of the subject, and the capture records (group, start, end), most
recent first. -/
structure MState where
  i : Nat
  prev : Option Char
  rest : List Char
  caps : List (Nat × Nat × Nat)
  deriving DecidableEq, Repr

/-- Consume one character satisfying `test`. -/
def consumeIf (test : Char → Bool) (p : MState) : List MState :=
  match p.rest with
  | [] => []
  | x :: xs => if test x then [⟨p.i + 1, some x, xs, p.caps⟩] else []

/-- All ways `r` can match at `p`, most preferred first.  The recursion is
structural on `fuel`, which decreases on every recursive call so that the
definition reduces inside the kernel; `Regex.fuelSize` below computes a
budget that provably exceeds the depth of any backtracking path, making the
matcher with that budget exact.  The quantifier cases implement the
ECMAScript greedy semantics: iterate first, and an optional iteration that
consumes no character ends the loop (the no-empty-loop rule). -/
def matchRe (ci : Bool) : Nat → Regex → MState → List MState
  | 0, _, _ => []
  | fuel + 1, r, p =>
    match r with
    | Regex.eps => [p]
    | Regex.ch c => consumeIf (charMatches ci c) p
    | Regex.cc neg items =>
        consumeIf (fun x => (items.any fun it => classItemMatches ci it x) != neg) p
    | Regex.dig => consumeIf (fun x => x.isDigit) p
    | Regex.ndig => consumeIf (fun x => !x.isDigit) p
    | Regex.spc => consumeIf isJsSpace p
    | Regex.nspc => consumeIf (fun x => !isJsSpace x) p
    | Regex.wrd => consumeIf isWordChar p
    | Regex.nwrd => consumeIf (fun x => !isWordChar x) p
    | Regex.bol => if p.i == 0 then [p] else []
    | Regex.eol => if p.rest.isEmpty then [p] else []
    | Regex.wordB =>
        let before := match p.prev with | some c => isWordChar c | none => false
        let after := match p.rest with | x :: _ => isWordChar x | [] => false
        if before != after then [p] else []
    | Regex.cat r1 r2 => (matchRe ci fuel r1 p).flatMap (matchRe ci fuel r2)
    | Regex.alt r1 r2 => matchRe ci fuel r1 p ++ matchRe ci fuel r2 p
    | Regex.group idx r1 =>
        (matchRe ci fuel r1 p).map (fun q => { q with caps := (idx, p.i, q.i) :: q.caps })
    | Regex.rep r1 (m + 1) extra =>
        (matchRe ci fuel r1 p).flatMap (matchRe ci fuel (Regex.rep r1 m extra))
    | Regex.rep _ 0 (some 0) => [p]
    | Regex.rep r1 0 (some (k + 1)) =>
        ((matchRe ci fuel r1 p).filter (fun q => p.i < q.i)).flatMap
          (matchRe ci fuel (Regex.rep r1 0 (some k))) ++ [p]
    | Regex.rep r1 0 none =>
        ((matchRe ci fuel r1 p).filter (fun q => p.i < q.i)).flatMap
          (matchRe ci fuel (Regex.rep r1 0 none)) ++ [p]

/-- Fuel budget: an upper bound on the recursion depth any match attempt of
`r` can reach, counting mandatory and bounded-optional iterations directly
and unbounded iterations via the subject-length factor in `matchFuel`
(every unbounded iteration must consume at least one character). -/
def Regex.fuelSize : Regex → Nat
  | Regex.eps | Regex.ch _ | Regex.cc _ _ => 1
  | Regex.dig | Regex.ndig | Regex.spc | Regex.nspc | Regex.wrd | Regex.nwrd => 1
  | Regex.bol | Regex.eol | Regex.wordB => 1
  | Regex.cat r1 r2 => 1 + r1.fuelSize + r2.fuelSize
  | Regex.alt r1 r2 => 1 + r1.fuelSize + r2.fuelSize
  | Regex.group _ r => 1 + r.fuelSize
  | Regex.rep r m extra =>
      1 + (m + 1) * (r.fuelSize + 1) +
        (match extra with | some k => k * (r.fuelSize + 1) | none => 0)

/-- Enough fuel for an exact match of `re` against `text`. -/
def matchFuel (text : List Char) (re : Regex) : Nat :=
  (text.length + 2) * (re.fuelSize + 2)

/-- Subject prepared for a match attempt at absolute index `i`. -/
def stateAt (text : List Char) (i : Nat) : MState :=
  ⟨i, if i = 0 then none else text[i - 1]?, text.drop i, []⟩

/-- The match the JS engine produces when anchored at index `i` (if any). -/
def matchAt (ci : Bool) (re : Regex) (text : List Char) (i : Nat) : Option MState :=
  (matchRe ci (matchFuel text re) re (stateAt text i)).head?

/-- ECMAScript leftmost search: try indices `start`, `start+1`, … up to the
subject length (RegExpBuiltinExec). -/
def searchFrom (ci : Bool) (re : Regex) (text : List Char) (start : Nat) :
    Option (Nat × MState) :=
  (List.range' start (text.length + 1 - start)).findSome?
    (fun i => (matchAt ci re text i).map (fun q => (i, q)))

/-- The substring between indices `i` and `j`. -/
def sliceStr (text : List Char) (i j : Nat) : String :=
  String.mk ((text.drop i).take (j - i))

/-- `match[k]` for `k ≥ 1`: the text of capture group `k` (`none` = the JS
`undefined` of a group that did not participate in the match). -/
def capture (text : List Char) (q : MState) (k : Nat) : Option String :=
  (q.caps.find? (fun e => e.1 == k)).map (fun e => sliceStr text e.2.1 e.2.2)

/-- A JS regex literal: its source text (kept verbatim — the engine stores
`pattern.source` in tracking metadata), syntax tree, and flags. -/
structure JsRegex where
  source : String
  ast : Regex
  global : Bool
  ci : Bool
  deriving DecidableEq

/-- One source `while ((match = pattern.exec(text)) !== null) { … }` loop.
`emit` is the loop body, mapping `match.index` and the match state to the
candidates it pushes.  Key ECMAScript behaviour: a regex without the `g`
flag neither reads nor writes `lastIndex`, so its search always restarts at
index 0 — if such a regex matches at all, the loop repeats the same match
forever.  The result is `none` when the loop does not finish within `fuel`
iterations; `none` for every fuel means the loop never terminates. -/
def execLoop (re : JsRegex) (text : List Char)
    (emit : Nat → MState → List PatternMatch) : Nat → Nat → Option (List PatternMatch)
  | 0, _ => none
  | fuel + 1, lastIndex =>
      match searchFrom re.ci re.ast text (if re.global then lastIndex else 0) with
      | none => some []
      | some (i, q) =>
          (execLoop re text emit fuel (if re.global then q.i else lastIndex)).map
            (fun later => emit i q ++ later)

/-- A regex together with its loop body, as they appear in a detector. -/
structure LoopSpec where
  re : JsRegex
  emit : Nat → MState → List PatternMatch

/-- The `patterns.forEach(pattern => { let match; while (…) {…} })` shape
shared by all detectors: the loops run sequentially and each starts with a
fresh `lastIndex` of 0.  If any loop fails to finish (`none`), the whole
detector call never returns. -/
def runLoops (text : List Char) (fuel : Nat) : List LoopSpec → Option (List PatternMatch)
  | [] => some []
  | spec :: rest =>
      match execLoop spec.re text spec.emit fuel 0 with
      | none => none
      | some ms => (runLoops text fuel rest).map (fun later => ms ++ later)

/-- `regex.test(s)` (used by the helper classifiers). -/
def jsTest (re : JsRegex) (s : String) : Bool :=
  (searchFrom re.ci re.ast s.data 0).isSome

/-- `s.match(re)`, first match only: index and state. -/
def jsMatchFirst (re : JsRegex) (s : String) : Option (Nat × MState) :=
  searchFrom re.ci re.ast s.data 0

/-- `s.match(re)?.[0]` — also the `[0]` of a global `String.match`, whose
result array starts with the leftmost match. -/
def jsMatch0 (re : JsRegex) (s : String) : Option String :=
  (jsMatchFirst re s).map (fun iq => sliceStr s.data iq.1 iq.2.i)

/-- `s.match(re)?.[k]` for a capture group `k ≥ 1`. -/
def jsMatchCap (re : JsRegex) (s : String) (k : Nat) : Option String :=
  (jsMatchFirst re s).bind (fun iq => capture s.data iq.2 k)

/-- `s.includes(sub)`. -/
def strIncludes (s sub : String) : Bool :=
  decide (List.IsInfix sub.data s.data)

/-! ### Regex construction helpers -/

def rcat : List Regex → Regex
  | [] => Regex.eps
  | [r] => r
  | r :: rs => Regex.cat r (rcat rs)

def ralts : List Regex → Regex
  | [] => Regex.eps
  | [r] => r
  | r :: rs => Regex.alt r (ralts rs)

/-- A literal character sequence. -/
def rstr (s : String) : Regex := rcat (s.data.map Regex.ch)

def rstar (r : Regex) : Regex := Regex.rep r 0 none
def rplus (r : Regex) : Regex := Regex.rep r 1 none
def ropt (r : Regex) : Regex := Regex.rep r 0 (some 1)
def rexact (r : Regex) (n : Nat) : Regex := Regex.rep r n (some 0)
def rrange (r : Regex) (m n : Nat) : Regex := Regex.rep r m (some (n - m))
def rmin (r : Regex) (m : Nat) : Regex := Regex.rep r m none
def cls (items : List ClassItem) : Regex := Regex.cc false items
def ncls (items : List ClassItem) : Regex := Regex.cc true items

def iAZ : ClassItem := ClassItem.range 'A' 'Z'
def iaz : ClassItem := ClassItem.range 'a' 'z'
def i09 : ClassItem := ClassItem.range '0' '9'

/-- Minimum number of characters any match of `r` consumes. -/
def Regex.minLen : Regex → Nat
  | Regex.eps | Regex.bol | Regex.eol | Regex.wordB => 0
  | Regex.ch _ | Regex.cc _ _ => 1
  | Regex.dig | Regex.ndig | Regex.spc | Regex.nspc | Regex.wrd | Regex.nwrd => 1
  | Regex.cat r1 r2 => r1.minLen + r2.minLen
  | Regex.alt r1 r2 => min r1.minLen r2.minLen
  | Regex.group _ r => r.minLen
  | Regex.rep r m _ => m * r.minLen

/-! ### Shared regex fragments -/

def sStar : Regex := rstar Regex.spc      -- \s*
def sPlus : Regex := rplus Regex.spc      -- \s+
def dPlus : Regex := rplus Regex.dig      -- \d+

/-- `[-.\s]?`, the separator that the phone patterns use. -/
def phoneSep : Regex := ropt (cls [ClassItem.one '-', ClassItem.one '.', ClassItem.scls])

/-- A word with an optional plural `s?` (e.g. `dollars?`). -/
def wordOptS (w : String) : Regex := rcat [rstr w, ropt (Regex.ch 's')]

/-! ### String and number helpers (JS built-ins) -/

/-- Value of a (possibly empty) digit string. -/
def digitsToNat (l : List Char) : Nat :=
  l.foldl (fun acc c => acc * 10 + (c.toNat - '0'.toNat)) 0

/-- `parseFloat`, restricted to the digit/dot/comma strings this engine
feeds it: the longest prefix of shape `digits [. digits]`; no leading digit
or dot-digit at all gives `NaN` (`none`). -/
def jsParseFloat (s : String) : Option ℚ :=
  let intPart := s.data.takeWhile Char.isDigit
  let rest := s.data.drop intPart.length
  let fracPart := match rest with
    | '.' :: t => t.takeWhile Char.isDigit
    | _ => []
  if intPart.isEmpty && fracPart.isEmpty then none
  else some ((digitsToNat intPart : ℚ) + (digitsToNat fracPart : ℚ) / ((10 : ℚ) ^ fracPart.length))

/-- `s.replace(',', '')` — a string pattern replaces the first occurrence only. -/
def removeFirstComma : List Char → List Char
  | [] => []
  | c :: cs => if c == ',' then cs else c :: removeFirstComma cs

/-- First-match lookup in a `Record<string, string>` literal, with default. -/
def lookupStr (table : List (String × String)) (key : String) (dflt : String) : String :=
  ((table.find? (fun e => e.1 == key)).map Prod.snd).getD dflt

/-! ## Currency detection (`detectCurrency`, part_011 lines 349–383) -/

/-- `(?:\.\d{2})?` -/
def centsOpt : Regex := ropt (rcat [Regex.ch '.', rexact Regex.dig 2])

/-- `[\d,]+` -/
def digComma : Regex := rplus (cls [ClassItem.dcls, ClassItem.one ','])

/-- `[\d\s,]+` -/
def digSpComma : Regex := rplus (cls [ClassItem.dcls, ClassItem.scls, ClassItem.one ','])

/-- `[\d\s.]+` -/
def digSpDot : Regex := rplus (cls [ClassItem.dcls, ClassItem.scls, ClassItem.one '.'])

/-- `(?:USD|EUR|GBP|JPY|CAD|AUD|CHF|CNY|INR|BRL)` -/
def currencyCodesAlt : Regex :=
  ralts [rstr "USD", rstr "EUR", rstr "GBP", rstr "JPY", rstr "CAD",
         rstr "AUD", rstr "CHF", rstr "CNY", rstr "INR", rstr "BRL"]

/-- A symbol-prefixed amount `/X[\d,]+(?:\.\d{2})?/g` for symbol `X`. -/
def symAmount (sym : Char) : JsRegex :=
  ⟨"", rcat [Regex.ch sym, digComma, centsOpt], true, false⟩

/-- `this.currencyPatterns` in `initializePatterns` order: eight
symbol-prefixed forms (`/g`), the ISO-code prefix form, the written-word
form, the international form, and the two trailing three-letter-code forms
(all `/gi`). -/
def currencyPatterns : List JsRegex :=
  [ symAmount '$'
  , symAmount '€'
  , symAmount '£'
  , symAmount '¥'
  , symAmount '₹'
  , symAmount '₽'
  , symAmount '₩'
  , symAmount '₪'
  , -- \b(?:USD|EUR|GBP|JPY|CAD|AUD|CHF|CNY|INR|BRL)\s+[\d,]+(?:\.\d{2})?\b  gi
    ⟨"", rcat [Regex.wordB, currencyCodesAlt, sPlus, digComma, centsOpt, Regex.wordB], true, true⟩
  , -- \b[\d,]+(?:\.\d{2})?\s*(?:dollars?|euros?|pounds?|yen|rupees?|rubles?|won|shekels?)\b  gi
    ⟨"", rcat [Regex.wordB, digComma, centsOpt, sStar,
        ralts [wordOptS "dollar", wordOptS "euro", wordOptS "pound", rstr "yen",
               wordOptS "rupee", wordOptS "ruble", rstr "won", wordOptS "shekel"],
        Regex.wordB], true, true⟩
  , -- \b[\d\s,]+(?:\.\d{2})?\s*(?:USD|EUR|GBP|JPY|CAD|AUD|CHF|CNY|INR|BRL)\b  gi
    ⟨"", rcat [Regex.wordB, digSpComma, centsOpt, sStar, currencyCodesAlt, Regex.wordB], true, true⟩
  , -- \b[\d\s,]+(?:\.\d{2})?\s*[A-Z]{3}\b  gi
    ⟨"", rcat [Regex.wordB, digSpComma, centsOpt, sStar, rexact (cls [iAZ]) 3, Regex.wordB],
      true, true⟩
  , -- \b[\d\s.]+(?:,\d{2})?\s*[A-Z]{3}\b  gi
    ⟨"", rcat [Regex.wordB, digSpDot, ropt (rcat [Regex.ch ',', rexact Regex.dig 2]), sStar,
        rexact (cls [iAZ]) 3, Regex.wordB], true, true⟩ ]

/-- `calculateCurrencyConfidence` (part_011 lines 502–505): no clamping. -/
def calculateCurrencyConfidence (_currency : String) (patternIndex : Nat) : ℚ :=
  0.8 + (patternIndex : ℚ) * 0.05

/-- `parseCurrencyAmount` (part_011 lines 1059–1062). -/
def parseCurrencyAmount (currency : String) : Option ℚ :=
  let amount := currency.data.filter (fun c => c.isDigit || c == '.' || c == ',')
  jsParseFloat (String.mk (removeFirstComma amount))

/-- `extractCurrencySymbol` (part_011 lines 1064–1067): only `$ € £ ¥` are
looked for; any other symbol yields `''`. -/
def extractCurrencySymbol (currency : String) : String :=
  (["$", "€", "£", "¥"].find? (fun symbol => strIncludes currency symbol)).getD ""

/-- `extractCurrencyCode` (part_011 lines 1298–1308). -/
def extractCurrencyCode (currency : String) : Option String :=
  ["USD", "EUR", "GBP", "JPY", "CAD", "AUD", "CHF", "CNY", "INR", "BRL"].find?
    (fun code => strIncludes currency code)

/-- `getCurrencyCodeFromSymbol` (part_011 lines 1310–1323), default `USD`. -/
def getCurrencyCodeFromSymbol (symbol : String) : String :=
  lookupStr
    [("$", "USD"), ("€", "EUR"), ("£", "GBP"), ("¥", "JPY"),
     ("₹", "INR"), ("₽", "RUB"), ("₩", "KRW"), ("₪", "ILS")]
    symbol "USD"

/-- `getCountryFromCurrency` (part_011 lines 1325–1340). -/
def getCountryFromCurrency (currency : String) : String :=
  lookupStr
    [("USD", "US"), ("EUR", "EU"), ("GBP", "GB"), ("JPY", "JP"), ("CAD", "CA"),
     ("AUD", "AU"), ("CHF", "CH"), ("CNY", "CN"), ("INR", "IN"), ("BRL", "BR")]
    currency "Unknown"

/-- `getDefaultConversionRates` (part_011 lines 1342–1351). -/
def getDefaultConversionRates (currency : String) : List (String × ℚ) :=
  if currency == "USD" then
    [("EUR", 0.85), ("GBP", 0.73), ("JPY", 110.0), ("CAD", 1.25), ("AUD", 1.35)]
  else if currency == "EUR" then
    [("USD", 1.18), ("GBP", 0.86), ("JPY", 129.0), ("CAD", 1.47), ("AUD", 1.59)]
  else if currency == "GBP" then
    [("USD", 1.37), ("EUR", 1.16), ("JPY", 150.0), ("CAD", 1.71), ("AUD", 1.85)]
  else []

/-- Loop body of `detectCurrency` for the pattern at `index`.  `code || …`
falls back to the symbol table when no ISO code occurs in the match, and
`code || symbol` is the JS `||` on a nullable string. -/
def currencyEmit (text : List Char) (index : Nat) (i : Nat) (q : MState) : List PatternMatch :=
  let currency := sliceStr text i q.i
  let confidence := calculateCurrencyConfidence currency index
  if (0.8 : ℚ) < confidence then
    let parsed := parseCurrencyAmount currency
    let symbol := extractCurrencySymbol currency
    let code := extractCurrencyCode currency
    [ { type := PatternType.currency, text := currency, confidence := confidence,
        startIndex := i, endIndex := i + currency.length,
        metadata :=
          [ ("patternIndex", MetaVal.num (index : ℚ))
          , ("amount", MetaVal.numOrNaN parsed)
          , ("symbol", MetaVal.str symbol)
          , ("code", MetaVal.str (code.getD (getCurrencyCodeFromSymbol symbol)))
          , ("country", MetaVal.str (getCountryFromCurrency (code.getD symbol)))
          , ("conversionRates", MetaVal.numPairs (getDefaultConversionRates (code.getD symbol))) ]
      } ]
  else []

/-- `detectCurrency` (part_011 lines 349–383). -/
def detectCurrency (text : String) (fuel : Nat) : Option (List PatternMatch) :=
  runLoops text.data fuel
    (currencyPatterns.enum.map (fun e => ⟨e.2, currencyEmit text.data e.1⟩))

/-! ## Tracking-number detection (`detectTrackingNumbers`, part_011 lines 230–259) -/

/-- `^ … $` around a fully anchored alternative. -/
def anch (r : Regex) : Regex := rcat [Regex.bol, r, Regex.eol]

/-- `^[0-9]{n}$` -/
def anchDigits (n : Nat) : Regex := anch (rexact (cls [i09]) n)

/-- `^[A-Z]{2}[0-9]{9}[A-Z]{2}$` (Royal-Mail-style international shape). -/
def intlShape : Regex :=
  anch (rcat [rexact (cls [iAZ]) 2, rexact (cls [i09]) 9, rexact (cls [iAZ]) 2])

/-- `this.trackingPatterns`: the `Map` entries in insertion order (value
regexes carry no flags — not even `g`).  The `source` field is the verbatim
JS pattern text, which the detector stores in `metadata.format`. -/
def trackingPatterns : List (String × JsRegex) :=
  [ ("UPS", ⟨"^1Z[0-9A-Z]\x7b16\x7d$",
      anch (rcat [rstr "1Z", rexact (cls [i09, iAZ]) 16]), false, false⟩)
  , ("FedEx", ⟨"^[0-9]\x7b12\x7d$|^[0-9]\x7b15\x7d$|^[0-9]\x7b22\x7d$",
      ralts [anchDigits 12, anchDigits 15, anchDigits 22], false, false⟩)
  , ("USPS", ⟨"^[0-9]\x7b20\x7d$|^[0-9]\x7b22\x7d$|^[A-Z]\x7b2\x7d[0-9]\x7b9\x7d[A-Z]\x7b2\x7d$",
      ralts [anchDigits 20, anchDigits 22, intlShape], false, false⟩)
  , ("DHL", ⟨"^[0-9]\x7b10\x7d$|^[0-9]\x7b12\x7d$|^[0-9]\x7b14\x7d$",
      ralts [anchDigits 10, anchDigits 12, anchDigits 14], false, false⟩)
  , ("Royal Mail", ⟨"^[A-Z]\x7b2\x7d[0-9]\x7b9\x7d[A-Z]\x7b2\x7d$",
      intlShape, false, false⟩)
  , ("Canada Post", ⟨"^[0-9]\x7b16\x7d$|^[A-Z]\x7b2\x7d[0-9]\x7b9\x7d[A-Z]\x7b2\x7d$",
      ralts [anchDigits 16, intlShape], false, false⟩)
  , ("Australia Post", ⟨"^[0-9]\x7b13\x7d$|^[A-Z]\x7b2\x7d[0-9]\x7b9\x7d[A-Z]\x7b2\x7d$",
      ralts [anchDigits 13, intlShape], false, false⟩)
  , ("Deutsche Post", ⟨"^[0-9]\x7b14\x7d$|^[0-9]\x7b16\x7d$",
      ralts [anchDigits 14, anchDigits 16], false, false⟩)
  , ("La Poste", ⟨"^[0-9]\x7b13\x7d$|^[0-9]\x7b15\x7d$",
      ralts [anchDigits 13, anchDigits 15], false, false⟩)
  , ("Correos", ⟨"^[0-9]\x7b14\x7d$|^[0-9]\x7b16\x7d$",
      ralts [anchDigits 14, anchDigits 16], false, false⟩)
  , ("PostNL", ⟨"^[0-9]\x7b14\x7d$|^[0-9]\x7b16\x7d$",
      ralts [anchDigits 14, anchDigits 16], false, false⟩)
  , ("Swiss Post", ⟨"^[0-9]\x7b13\x7d$|^[0-9]\x7b15\x7d$",
      ralts [anchDigits 13, anchDigits 15], false, false⟩)
  , ("Amazon", ⟨"^TBA[0-9]\x7b10\x7d$|^1Z[0-9A-Z]\x7b16\x7d$",
      ralts [anch (rcat [rstr "TBA", rexact (cls [i09]) 10]),
             anch (rcat [rstr "1Z", rexact (cls [i09, iAZ]) 16])], false, false⟩)
  , ("eBay", ⟨"^[0-9]\x7b12\x7d$|^[0-9]\x7b15\x7d$|^[0-9]\x7b20\x7d$",
      ralts [anchDigits 12, anchDigits 15, anchDigits 20], false, false⟩)
  , ("AliExpress", ⟨"^[0-9]\x7b13\x7d$|^[0-9]\x7b15\x7d$|^[0-9]\x7b17\x7d$",
      ralts [anchDigits 13, anchDigits 15, anchDigits 17], false, false⟩)
  , ("Generic", ⟨"^[0-9A-Z]\x7b10,25\x7d$",
      anch (rrange (cls [i09, iAZ]) 10 25), false, false⟩) ]

/-- `calculateTrackingConfidence` (part_011 lines 1164–1176). -/
def calculateTrackingConfidence (trackingNumber : String) (carrier : String) : ℚ :=
  let knownCarriers := ["UPS", "FedEx", "USPS", "DHL", "Royal Mail", "Canada Post"]
  let baseConfidence : ℚ := if knownCarriers.contains carrier then 0.9 else 0.7
  let length := trackingNumber.length
  if 10 ≤ length ∧ length ≤ 25 then min (baseConfidence + 0.1) 0.95
  else baseConfidence

/-- `getCarrierCountry` (part_011 lines 1178–1195). -/
def getCarrierCountry (carrier : String) : String :=
  lookupStr
    [("UPS", "US"), ("FedEx", "US"), ("USPS", "US"), ("DHL", "DE"),
     ("Royal Mail", "GB"), ("Canada Post", "CA"), ("Australia Post", "AU"),
     ("Deutsche Post", "DE"), ("La Poste", "FR"), ("Correos", "ES"),
     ("PostNL", "NL"), ("Swiss Post", "CH")]
    carrier "Unknown"

/-- `getTrackingUrl` (part_011 lines 1197–1212). -/
def getTrackingUrl (carrier : String) (trackingNumber : String) : String :=
  if carrier == "UPS" then "https://www.ups.com/track?tracknum=" ++ trackingNumber
  else if carrier == "FedEx" then "https://www.fedex.com/fedextrack/?trknbr=" ++ trackingNumber
  else if carrier == "USPS" then
    "https://tools.usps.com/go/TrackConfirmAction?tLabels=" ++ trackingNumber
  else if carrier == "DHL" then
    "https://www.dhl.com/en/express/tracking.html?AWB=" ++ trackingNumber
  else if carrier == "Royal Mail" then
    "https://www.royalmail.com/track-your-item#/tracking-results/" ++ trackingNumber
  else if carrier == "Canada Post" then
    "https://www.canadapost-postescanada.ca/track-reperage/en#/resultList?searchFor=" ++
      trackingNumber
  else if carrier == "Amazon" then
    "https://www.amazon.com/gp/your-account/order-details?orderID=" ++ trackingNumber
  else if carrier == "eBay" then
    "https://www.ebay.com/sh/lst/active?tracking_number=" ++ trackingNumber
  else "https://www.google.com/search?q=" ++ trackingNumber

/-- Loop body of `detectTrackingNumbers` for one `(carrier, pattern)` entry. -/
def trackingEmit (text : List Char) (carrier : String) (source : String) (i : Nat) (q : MState) :
    List PatternMatch :=
  let trackingNumber := sliceStr text i q.i
  let confidence := calculateTrackingConfidence trackingNumber carrier
  if (0.8 : ℚ) < confidence then
    [ { type := PatternType.trackingNumber, text := trackingNumber, confidence := confidence,
        startIndex := i, endIndex := i + trackingNumber.length,
        metadata :=
          [ ("carrier", MetaVal.str carrier.toLower)
          , ("format", MetaVal.str source)
          , ("country", MetaVal.str (getCarrierCountry carrier))
          , ("trackingUrl", MetaVal.str (getTrackingUrl carrier trackingNumber)) ]
      } ]
  else []

/-- `detectTrackingNumbers` (part_011 lines 230–259): the `Map.forEach`
callback receives `(pattern, carrier)` in insertion order. -/
def detectTrackingNumbers (text : String) (fuel : Nat) : Option (List PatternMatch) :=
  runLoops text.data fuel
    (trackingPatterns.map (fun e => ⟨e.2, trackingEmit text.data e.1 e.2.source⟩))

/-! ## URL detection (`detectUrls`, part_011 lines 1134–1161) -/

/-- `PATTERN_REGEX.URL` (constants):
`^https?:\/\/(www\.)?[-a-zA-Z0-9@:%._\+~#=]{1,256}\.[a-zA-Z0-9()]{1,6}\b([-a-zA-Z0-9()@:%_\+.~#?&//=]*)$`
— no flags, in particular not `g`. -/
def urlRegex : JsRegex :=
  ⟨"", rcat
    [ Regex.bol, rstr "http", ropt (Regex.ch 's'), rstr "://"
    , ropt (Regex.group 1 (rstr "www."))
    , rrange (cls [ClassItem.one '-', iaz, iAZ, i09, ClassItem.one '@', ClassItem.one ':',
        ClassItem.one '%', ClassItem.one '.', ClassItem.one '_', ClassItem.one '+',
        ClassItem.one '~', ClassItem.one '#', ClassItem.one '=']) 1 256
    , Regex.ch '.'
    , rrange (cls [iaz, iAZ, i09, ClassItem.one '(', ClassItem.one ')']) 1 6
    , Regex.wordB
    , Regex.group 2 (rstar (cls [ClassItem.one '-', iaz, iAZ, i09, ClassItem.one '(',
        ClassItem.one ')', ClassItem.one '@', ClassItem.one ':', ClassItem.one '%',
        ClassItem.one '_', ClassItem.one '+', ClassItem.one '.', ClassItem.one '~',
        ClassItem.one '#', ClassItem.one '?', ClassItem.one '&', ClassItem.one '/',
        ClassItem.one '=']))
    , Regex.eol ], false, false⟩

/-- `calculateUrlConfidence` (part_011 lines 483–488). -/
def calculateUrlConfidence (url : String) : ℚ :=
  if url.length < 10 then 0.3
  else if !strIncludes url "." || strIncludes url ".." then 0.4
  else if url.startsWith "http://" || url.startsWith "https://" then 0.95
  else 0.8

/-- `detectUrlCountry` (part_011 lines 1516–1536). -/
def detectUrlCountry (url : String) : String :=
  (((([
      (".uk", "GB"), (".de", "DE"), (".fr", "FR"), (".es", "ES"), (".it", "IT"),
      (".ca", "CA"), (".au", "AU"), (".jp", "JP"), (".cn", "CN"), (".in", "IN"),
      (".br", "BR"), (".ru", "RU"), (".kr", "KR")] :
    List (String × String)).find? (fun e => strIncludes url e.1)).map Prod.snd).getD "Unknown")

/-- Loop body of `detectUrls`. -/
def urlEmit (text : List Char) (i : Nat) (q : MState) : List PatternMatch :=
  let url := sliceStr text i q.i
  let confidence := calculateUrlConfidence url
  if (0.8 : ℚ) < confidence then
    [ { type := PatternType.url, text := url, confidence := confidence,
        startIndex := i, endIndex := i + url.length,
        metadata :=
          [ ("protocol", MetaVal.str ((url.splitOn "://").headD ""))
          , ("domain", match (url.splitOn "://")[1]? with
              | some s => MetaVal.str ((s.splitOn "/").headD "")
              | none => MetaVal.undef)
          , ("isSecure", MetaVal.boolean (url.startsWith "https://"))
          , ("country", MetaVal.str (detectUrlCountry url)) ]
      } ]
  else []

/-- `detectUrls` (part_011 lines 1134–1161): a single `while (exec)` loop on
the non-global `PATTERN_REGEX.URL`. -/
def detectUrls (text : String) (fuel : Nat) : Option (List PatternMatch) :=
  runLoops text.data fuel [⟨urlRegex, urlEmit text.data⟩]

/-! ## Email detection (`detectEmails`, part_011 lines 421–459) -/

/-- `[A-Za-z0-9._%+-]+` -/
def emailLocalPart : Regex :=
  rplus (cls [iAZ, iaz, i09, ClassItem.one '.', ClassItem.one '_', ClassItem.one '%',
    ClassItem.one '+', ClassItem.one '-'])

/-- `[A-Za-z0-9.-]+` -/
def emailDomainPart : Regex :=
  rplus (cls [iAZ, iaz, i09, ClassItem.one '.', ClassItem.one '-'])

/-- `[A-Z|a-z]{2,}` (the source class literally contains `|`). -/
def emailTldPart : Regex := rmin (cls [iAZ, ClassItem.one '|', iaz]) 2

/-- The three local `emailPatterns` of `detectEmails`, all `/g`: one, two and
three trailing TLD segments. -/
def emailPatterns : List JsRegex :=
  [ ⟨"", rcat [Regex.wordB, emailLocalPart, Regex.ch '@', emailDomainPart,
      Regex.ch '.', emailTldPart, Regex.wordB], true, false⟩
  , ⟨"", rcat [Regex.wordB, emailLocalPart, Regex.ch '@', emailDomainPart,
      Regex.ch '.', emailTldPart, Regex.ch '.', emailTldPart, Regex.wordB], true, false⟩
  , ⟨"", rcat [Regex.wordB, emailLocalPart, Regex.ch '@', emailDomainPart,
      Regex.ch '.', emailTldPart, Regex.ch '.', emailTldPart, Regex.ch '.', emailTldPart,
      Regex.wordB], true, false⟩ ]

/-- `calculateEmailConfidence` (part_011 lines 461–473). -/
def calculateEmailConfidence (email : String) : ℚ :=
  if 50 < email.length then 0.3
  else if strIncludes email ".." then 0.4
  else if email.startsWith "." || email.endsWith "." then 0.5
  else if (email.splitOn "@").length ≠ 2 then 0.3
  else
    let localPart := (email.splitOn "@").headD ""
    let domain := ((email.splitOn "@")[1]?).getD ""
    if localPart.length < 1 || domain.length < 3 then 0.4
    else if strIncludes domain ".." then 0.4
    else 0.9

/-- `detectEmailCountry` (part_011 lines 1423–1455): first matching TLD
suffix in entry order. -/
def detectEmailCountry (domain : String) : String :=
  (((([
      (".uk", "GB"), (".de", "DE"), (".fr", "FR"), (".es", "ES"), (".it", "IT"),
      (".ca", "CA"), (".au", "AU"), (".jp", "JP"), (".cn", "CN"), (".in", "IN"),
      (".br", "BR"), (".ru", "RU"), (".kr", "KR"), (".nl", "NL"), (".ch", "CH"),
      (".se", "SE"), (".no", "NO"), (".dk", "DK"), (".fi", "FI"), (".pl", "PL")] :
    List (String × String)).find? (fun e => domain.endsWith e.1)).map Prod.snd).getD "Unknown")

/-- `isDisposableEmail` (part_011 lines 1457–1464). -/
def isDisposableEmail (domain : String) : Bool :=
  ["tempmail.com", "10minutemail.com", "guerrillamail.com", "mailinator.com",
   "yopmail.com", "trashmail.com", "sharklasers.com", "getairmail.com"].any
    (fun d => strIncludes domain d)

/-- `isCorporateEmail` (part_011 lines 1466–1473). -/
def isCorporateEmail (domain : String) : Bool :=
  ["corp", "inc", "llc", "ltd", "company", "enterprise", "business",
   "office", "work", "job", "career", "professional"].any
    (fun indicator => strIncludes domain indicator)

/-- `getSuggestedEmailActions` (part_011 lines 1475–1483). -/
def getSuggestedEmailActions (email : String) : List String :=
  ["email", "copy"] ++
    (if isCorporateEmail (((email.splitOn "@")[1]?).getD "") then ["contact", "save"] else [])

/-- Loop body of `detectEmails` (shared by its three patterns). -/
def emailEmit (text : List Char) (i : Nat) (q : MState) : List PatternMatch :=
  let email := sliceStr text i q.i
  let confidence := calculateEmailConfidence email
  if (0.7 : ℚ) < confidence then
    let localPart := (email.splitOn "@").headD ""
    let domain := ((email.splitOn "@")[1]?).getD ""
    [ { type := PatternType.email, text := email, confidence := confidence,
        startIndex := i, endIndex := i + email.length,
        metadata :=
          [ ("domain", MetaVal.str domain)
          , ("localPart", MetaVal.str localPart)
          , ("country", MetaVal.str (detectEmailCountry domain))
          , ("isDisposable", MetaVal.boolean (isDisposableEmail domain))
          , ("isCorporate", MetaVal.boolean (isCorporateEmail domain))
          , ("suggestedActions", MetaVal.strList (getSuggestedEmailActions email)) ]
      } ]
  else []

/-- `detectEmails` (part_011 lines 421–459). -/
def detectEmails (text : String) (fuel : Nat) : Option (List PatternMatch) :=
  runLoops text.data fuel (emailPatterns.map (fun re => ⟨re, emailEmit text.data⟩))

/-! ## Phone detection (`detectPhoneNumbers`, part_011 lines 1083–1132) -/

/-- `[0-9]{n}` as a capture group `g`. -/
def grpDigits (g n : Nat) : Regex := Regex.group g (rexact (cls [i09]) n)

/-- The eight local `phonePatterns` of `detectPhoneNumbers`, all `/g`. -/
def phonePatterns : List JsRegex :=
  [ -- \b(?:\+?1[-.\s]?)?\(?([0-9]{3})\)?[-.\s]?([0-9]{3})[-.\s]?([0-9]{4})\b
    ⟨"", rcat [Regex.wordB, ropt (rcat [ropt (Regex.ch '+'), Regex.ch '1', phoneSep]),
      ropt (Regex.ch '('), grpDigits 1 3, ropt (Regex.ch ')'), phoneSep,
      grpDigits 2 3, phoneSep, grpDigits 3 4, Regex.wordB], true, false⟩
  , -- \b(?:\+?1[-.\s]?)?([0-9]{3})[-.\s]?([0-9]{3})[-.\s]?([0-9]{4})\b
    ⟨"", rcat [Regex.wordB, ropt (rcat [ropt (Regex.ch '+'), Regex.ch '1', phoneSep]),
      grpDigits 1 3, phoneSep, grpDigits 2 3, phoneSep, grpDigits 3 4, Regex.wordB],
      true, false⟩
  , -- \b(?:\+?[0-9]{1,3}[-.\s]?)?([0-9]{4,5})[-.\s]?([0-9]{4,5})\b
    ⟨"", rcat [Regex.wordB,
      ropt (rcat [ropt (Regex.ch '+'), rrange (cls [i09]) 1 3, phoneSep]),
      Regex.group 1 (rrange (cls [i09]) 4 5), phoneSep,
      Regex.group 2 (rrange (cls [i09]) 4 5), Regex.wordB], true, false⟩
  , -- \b\+[0-9]{1,4}[-.\s]?[0-9]{1,4}[-.\s]?[0-9]{1,4}[-.\s]?[0-9]{1,4}\b
    ⟨"", rcat [Regex.wordB, Regex.ch '+', rrange (cls [i09]) 1 4, phoneSep,
      rrange (cls [i09]) 1 4, phoneSep, rrange (cls [i09]) 1 4, phoneSep,
      rrange (cls [i09]) 1 4, Regex.wordB], true, false⟩
  , -- \b(?:\+44|0)[0-9]{2,4}[-.\s]?[0-9]{3,4}[-.\s]?[0-9]{3,4}\b
    ⟨"", rcat [Regex.wordB, ralts [rstr "+44", rstr "0"], rrange (cls [i09]) 2 4, phoneSep,
      rrange (cls [i09]) 3 4, phoneSep, rrange (cls [i09]) 3 4, Regex.wordB], true, false⟩
  , -- \b(?:\+33|0)[0-9]{1,2}[-.\s]?[0-9]{2,3}[-.\s]?[0-9]{2,3}[-.\s]?[0-9]{2,3}\b
    ⟨"", rcat [Regex.wordB, ralts [rstr "+33", rstr "0"], rrange (cls [i09]) 1 2, phoneSep,
      rrange (cls [i09]) 2 3, phoneSep, rrange (cls [i09]) 2 3, phoneSep,
      rrange (cls [i09]) 2 3, Regex.wordB], true, false⟩
  , -- \b(?:\+49|0)[0-9]{2,4}[-.\s]?[0-9]{3,4}[-.\s]?[0-9]{3,4}\b
    ⟨"", rcat [Regex.wordB, ralts [rstr "+49", rstr "0"], rrange (cls [i09]) 2 4, phoneSep,
      rrange (cls [i09]) 3 4, phoneSep, rrange (cls [i09]) 3 4, Regex.wordB], true, false⟩
  , -- \b\+[0-9]{1,4}[-.\s]?[0-9]{4,15}\b
    ⟨"", rcat [Regex.wordB, Regex.ch '+', rrange (cls [i09]) 1 4, phoneSep,
      rrange (cls [i09]) 4 15, Regex.wordB], true, false⟩ ]

/-- `calculatePhoneConfidence` (part_011 lines 475–481); the digit count is
`phone.replace(/\D/g, '').length`. -/
def calculatePhoneConfidence (phone : String) : ℚ :=
  let digits := phone.data.filter Char.isDigit
  if digits.length < 7 || 15 < digits.length then 0.3
  else if digits.length == 10 || digits.length == 11 then 0.9
  else 0.7

/-- `formatPhoneNumber` (part_011 lines 539–545). -/
def formatPhoneNumber (phone : String) : String :=
  let digits := phone.data.filter Char.isDigit
  if digits.length == 10 then
    "(" ++ String.mk (digits.take 3) ++ ") " ++ String.mk ((digits.drop 3).take 3) ++ "-" ++
      String.mk (digits.drop 6)
  else phone

/-- The `^\+?NN` prefix tests of `detectPhoneCountry`. -/
def phoneCountryPrefix (digits : String) : JsRegex :=
  ⟨"", rcat [Regex.bol, ropt (Regex.ch '+'), rstr digits], false, false⟩

/-- `detectPhoneCountry` (part_011 lines 1485–1514): first matching entry in
object order. -/
def detectPhoneCountry (phoneNumber : String) : String :=
  ((([("US", "1"), ("GB", "44"), ("DE", "49"), ("FR", "33"), ("ES", "34"),
      ("IT", "39"), ("CA", "1"), ("AU", "61"), ("JP", "81"), ("CN", "86"),
      ("IN", "91"), ("BR", "55"), ("RU", "7"), ("KR", "82")].find?
        (fun e => jsTest (phoneCountryPrefix e.2) phoneNumber)).map Prod.fst).getD "Unknown")

/-- `/\+(\d+)/`, used for `metadata.countryCode`. -/
def plusDigitsRe : JsRegex :=
  ⟨"", rcat [Regex.ch '+', Regex.group 1 (rplus Regex.dig)], false, false⟩

/-- Loop body of `detectPhoneNumbers` (shared by its eight patterns). -/
def phoneEmit (text : List Char) (i : Nat) (q : MState) : List PatternMatch :=
  let phoneNumber := sliceStr text i q.i
  let confidence := calculatePhoneConfidence phoneNumber
  if (0.6 : ℚ) < confidence then
    [ { type := PatternType.phone, text := phoneNumber, confidence := confidence,
        startIndex := i, endIndex := i + phoneNumber.length,
        metadata :=
          [ ("countryCode",
              if phoneNumber.startsWith "+" then
                match jsMatchCap plusDigitsRe phoneNumber 1 with
                | some s => MetaVal.str s
                | none => MetaVal.undef
              else MetaVal.undef)
          , ("formatted", MetaVal.str (formatPhoneNumber phoneNumber))
          , ("country", MetaVal.str (detectPhoneCountry phoneNumber))
          , ("isInternational", MetaVal.boolean (phoneNumber.startsWith "+")) ]
      } ]
  else []

/-- `detectPhoneNumbers` (part_011 lines 1083–1132). -/
def detectPhoneNumbers (text : String) (fuel : Nat) : Option (List PatternMatch) :=
  runLoops text.data fuel (phonePatterns.map (fun re => ⟨re, phoneEmit text.data⟩))

/-! ## Unit detection (`detectUnits`, part_011 lines 385–418) -/

/-- `(?:kg|kilograms?|lb|pounds?|g|grams?|oz|ounces?|ton|tons?|stone|stones?)` -/
def weightUnitsAlt : Regex :=
  ralts [rstr "kg", wordOptS "kilogram", rstr "lb", wordOptS "pound", rstr "g",
         wordOptS "gram", rstr "oz", wordOptS "ounce", rstr "ton", wordOptS "ton",
         rstr "stone", wordOptS "stone"]

/-- `(?:km|kilometers?|mi|miles?|m|meters?|ft|feet?|in|inches?|cm|centimeters?|mm|millimeters?|yd|yards?)` -/
def distanceUnitsAlt : Regex :=
  ralts [rstr "km", wordOptS "kilometer", rstr "mi", wordOptS "mile", rstr "m",
         wordOptS "meter", rstr "ft", rcat [rstr "fee", ropt (Regex.ch 't')], rstr "in",
         rcat [rstr "inch", ropt (rstr "es")], rstr "cm", wordOptS "centimeter",
         rstr "mm", wordOptS "millimeter", rstr "yd", wordOptS "yard"]

/-- `(?:L|liters?|gal|gallons?|ml|milliliters?|fl\s*oz|fluid\s*ounces?|pt|pints?|qt|quarts?|cup|cups?)` -/
def volumeUnitsAlt : Regex :=
  ralts [rstr "L", wordOptS "liter", rstr "gal", wordOptS "gallon", rstr "ml",
         wordOptS "milliliter", rcat [rstr "fl", sStar, rstr "oz"],
         rcat [rstr "fluid", sStar, wordOptS "ounce"], rstr "pt", wordOptS "pint",
         rstr "qt", wordOptS "quart", rstr "cup", wordOptS "cup"]

/-- `(?:°C|°F|celsius|fahrenheit|kelvin)` -/
def temperatureUnitsAlt : Regex :=
  ralts [rstr "°C", rstr "°F", rstr "celsius", rstr "fahrenheit", rstr "kelvin"]

/-- `(?:sq\s*ft|square\s*feet?|sq\s*m|square\s*meters?|acres?|hectares?)` -/
def areaUnitsAlt : Regex :=
  ralts [rcat [rstr "sq", sStar, rstr "ft"],
         rcat [rstr "square", sStar, rstr "fee", ropt (Regex.ch 't')],
         rcat [rstr "sq", sStar, rstr "m"],
         rcat [rstr "square", sStar, wordOptS "meter"],
         wordOptS "acre", wordOptS "hectare"]

/-- `(?:km\/h|mph|m\/s|knots?)` -/
def speedUnitsAlt : Regex :=
  ralts [rstr "km/h", rstr "mph", rstr "m/s", wordOptS "knot"]

/-- `(?:KB|MB|GB|TB|kilobytes?|megabytes?|gigabytes?|terabytes?)` -/
def digitalUnitsAlt : Regex :=
  ralts [rstr "KB", rstr "MB", rstr "GB", rstr "TB", wordOptS "kilobyte",
         wordOptS "megabyte", wordOptS "gigabyte", wordOptS "terabyte"]

/-- `(?:seconds?|minutes?|hours?|days?|weeks?|months?|years?)` -/
def timeUnitsAlt : Regex :=
  ralts [wordOptS "second", wordOptS "minute", wordOptS "hour", wordOptS "day",
         wordOptS "week", wordOptS "month", wordOptS "year"]

/-- `\b\d+(?:\.\d+)?\s*` — the numeric prefix shared by all unit patterns. -/
def unitNumPrefix : Regex :=
  rcat [Regex.wordB, dPlus, ropt (rcat [Regex.ch '.', dPlus]), sStar]

/-- `this.unitPatterns` in `initializePatterns` order (all `/gi`): weight,
distance, volume, temperature, area, speed, digital, time. -/
def unitPatterns : List JsRegex :=
  [ ⟨"", rcat [unitNumPrefix, weightUnitsAlt, Regex.wordB], true, true⟩
  , ⟨"", rcat [unitNumPrefix, distanceUnitsAlt, Regex.wordB], true, true⟩
  , ⟨"", rcat [unitNumPrefix, volumeUnitsAlt, Regex.wordB], true, true⟩
  , ⟨"", rcat [unitNumPrefix, temperatureUnitsAlt, Regex.wordB], true, true⟩
  , ⟨"", rcat [unitNumPrefix, areaUnitsAlt, Regex.wordB], true, true⟩
  , ⟨"", rcat [unitNumPrefix, speedUnitsAlt, Regex.wordB], true, true⟩
  , ⟨"", rcat [unitNumPrefix, digitalUnitsAlt, Regex.wordB], true, true⟩
  , ⟨"", rcat [unitNumPrefix, timeUnitsAlt, Regex.wordB], true, true⟩ ]

/-- `calculateUnitConfidence` (part_011 lines 507–510): no clamping. -/
def calculateUnitConfidence (_unit : String) (patternIndex : Nat) : ℚ :=
  0.8 + (patternIndex : ℚ) * 0.05

/-- `/\d+(?:\.\d+)?/`, used by `parseUnitValue`. -/
def numberRe : JsRegex :=
  ⟨"", rcat [dPlus, ropt (rcat [Regex.ch '.', dPlus])], false, false⟩

/-- `parseUnitValue` (part_011 lines 1069–1072). -/
def parseUnitValue (unit : String) : ℚ :=
  match jsMatch0 numberRe unit with
  | some v => (jsParseFloat v).getD 0
  | none => 0

/-- The big first-match regex of `extractUnitType` (part_011 lines 1074–1077),
`/i`, no `g`. -/
def unitTypeRe : JsRegex :=
  ⟨"", ralts [rstr "kg", wordOptS "kilogram", rstr "lb", wordOptS "pound", rstr "g",
      wordOptS "gram", rstr "oz", wordOptS "ounce", rstr "km", wordOptS "kilometer",
      rstr "mi", wordOptS "mile", rstr "m", wordOptS "meter", rstr "ft",
      rcat [rstr "fee", ropt (Regex.ch 't')], rstr "in", rcat [rstr "inch", ropt (rstr "es")],
      rstr "L", wordOptS "liter", rstr "gal", wordOptS "gallon", rstr "ml",
      wordOptS "milliliter", rcat [rstr "fl", sStar, rstr "oz"],
      rcat [rstr "fluid", sStar, wordOptS "ounce"], rstr "°C", rstr "°F",
      rstr "celsius", rstr "fahrenheit"], false, true⟩

/-- `extractUnitType` (part_011 lines 1074–1077). -/
def extractUnitType (unit : String) : String :=
  (jsMatch0 unitTypeRe unit).getD ""

/-- `categorizeUnit` (part_011 lines 1353–1380): first matching category
test (`/i` searches), else `unknown`. -/
def categorizeUnit (unit : String) : String :=
  if jsTest ⟨"", weightUnitsAlt, false, true⟩ unit then "weight"
  else if jsTest ⟨"", distanceUnitsAlt, false, true⟩ unit then "distance"
  else if jsTest ⟨"", volumeUnitsAlt, false, true⟩ unit then "volume"
  else if jsTest ⟨"", temperatureUnitsAlt, false, true⟩ unit then "temperature"
  else if jsTest ⟨"", areaUnitsAlt, false, true⟩ unit then "area"
  else if jsTest ⟨"", speedUnitsAlt, false, true⟩ unit then "speed"
  else if jsTest ⟨"", digitalUnitsAlt, false, true⟩ unit then "digital"
  else if jsTest ⟨"", timeUnitsAlt, false, true⟩ unit then "time"
  else "unknown"

/-- `getUnitConversions` (part_011 lines 1382–1406). -/
def getUnitConversions (unit : String) (value : ℚ) : List (String × ℚ) :=
  let category := categorizeUnit unit
  if category == "weight" then
    [("kg", value), ("lb", value * 2.20462), ("g", value * 1000), ("oz", value * 35.274)]
  else if category == "distance" then
    [("km", value), ("mi", value * 0.621371), ("m", value * 1000), ("ft", value * 3280.84)]
  else if category == "temperature" then
    [("°C", value), ("°F", value * 9 / 5 + 32), ("K", value + 273.15)]
  else []

/-- `getPreferredUnits` (part_011 lines 1408–1421). -/
def getPreferredUnits (category : String) : List String :=
  if category == "weight" then ["kg", "lb"]
  else if category == "distance" then ["km", "mi", "m"]
  else if category == "volume" then ["L", "gal", "ml"]
  else if category == "temperature" then ["°C", "°F"]
  else if category == "area" then ["sq m", "sq ft"]
  else if category == "speed" then ["km/h", "mph"]
  else if category == "digital" then ["GB", "MB", "KB"]
  else if category == "time" then ["hours", "minutes", "days"]
  else []

/-- Loop body of `detectUnits` for the pattern at `index`. -/
def unitEmit (text : List Char) (index : Nat) (i : Nat) (q : MState) : List PatternMatch :=
  let unit := sliceStr text i q.i
  let confidence := calculateUnitConfidence unit index
  if (0.8 : ℚ) < confidence then
    let parsed := parseUnitValue unit
    let unitType := extractUnitType unit
    let category := categorizeUnit unitType
    [ { type := PatternType.unit, text := unit, confidence := confidence,
        startIndex := i, endIndex := i + unit.length,
        metadata :=
          [ ("patternIndex", MetaVal.num (index : ℚ))
          , ("value", MetaVal.num parsed)
          , ("unit", MetaVal.str unitType)
          , ("category", MetaVal.str category)
          , ("conversions", MetaVal.numPairs (getUnitConversions unitType parsed))
          , ("preferredUnits", MetaVal.strList (getPreferredUnits category)) ]
      } ]
  else []

/-- `detectUnits` (part_011 lines 385–418). -/
def detectUnits (text : String) (fuel : Nat) : Option (List PatternMatch) :=
  runLoops text.data fuel
    (unitPatterns.enum.map (fun e => ⟨e.2, unitEmit text.data e.1⟩))

/-! ## Address detection (`detectAddresses`, part_011 lines 261–311) -/

/-- `[A-Za-z\s]+` -/
def alphaSpacePlus : Regex := rplus (cls [iAZ, iaz, ClassItem.scls])

/-- `(?:Street|St|Avenue|Ave|Road|Rd|Boulevard|Blvd|Drive|Dr|Lane|Ln|Court|Ct|Place|Pl|Way|Terrace|Ter)` -/
def usSuffixAlt : Regex :=
  ralts [rstr "Street", rstr "St", rstr "Avenue", rstr "Ave", rstr "Road", rstr "Rd",
         rstr "Boulevard", rstr "Blvd", rstr "Drive", rstr "Dr", rstr "Lane", rstr "Ln",
         rstr "Court", rstr "Ct", rstr "Place", rstr "Pl", rstr "Way", rstr "Terrace",
         rstr "Ter"]

/-- The US suffixes extended with `Close|Crescent|Grove|Hill|Mews|Park|Row|Square|Walk`. -/
def ukSuffixAlt : Regex :=
  ralts [rstr "Street", rstr "St", rstr "Avenue", rstr "Ave", rstr "Road", rstr "Rd",
         rstr "Boulevard", rstr "Blvd", rstr "Drive", rstr "Dr", rstr "Lane", rstr "Ln",
         rstr "Court", rstr "Ct", rstr "Place", rstr "Pl", rstr "Way", rstr "Terrace",
         rstr "Ter", rstr "Close", rstr "Crescent", rstr "Grove", rstr "Hill", rstr "Mews",
         rstr "Park", rstr "Row", rstr "Square", rstr "Walk"]

/-- `(?:straße|strasse|straat|rue|calle|via|ulica|utca)` -/
def euStreetAlt : Regex :=
  ralts [rstr "straße", rstr "strasse", rstr "straat", rstr "rue", rstr "calle",
         rstr "via", rstr "ulica", rstr "utca"]

/-- `\d{5}(?:-\d{4})?` (US ZIP, with the optional plus-four tail). -/
def zipTail : Regex :=
  rcat [rexact Regex.dig 5, ropt (rcat [Regex.ch '-', rexact Regex.dig 4])]

/-- `this.addressPatterns` (part_011 lines 30–47): US/Canada (3, `/i`), UK
(2, `/i`), European (2, `/gi`), generic international (2, `/gi`). -/
def addressPatterns : List JsRegex :=
  [ -- \b\d+\s+[A-Za-z\s]+(?:…US suffixes…)\b  /i
    ⟨"", rcat [Regex.wordB, dPlus, sPlus, alphaSpacePlus, usSuffixAlt, Regex.wordB],
      false, true⟩
  , -- \b[A-Za-z\s]+(?:…US suffixes…)\s+\d+\b  /i
    ⟨"", rcat [Regex.wordB, alphaSpacePlus, usSuffixAlt, sPlus, dPlus, Regex.wordB],
      false, true⟩
  , -- \b\d+\s+[A-Za-z\s]+(?:…US suffixes…)\s*,\s*[A-Za-z\s]+,\s*[A-Z]{2}\s+\d{5}(?:-\d{4})?\b  /i
    ⟨"", rcat [Regex.wordB, dPlus, sPlus, alphaSpacePlus, usSuffixAlt, sStar, Regex.ch ',',
      sStar, alphaSpacePlus, Regex.ch ',', sStar, rexact (cls [iAZ]) 2, sPlus, zipTail,
      Regex.wordB], false, true⟩
  , -- \b\d+\s+[A-Za-z\s]+(?:…UK suffixes…)\b  /i
    ⟨"", rcat [Regex.wordB, dPlus, sPlus, alphaSpacePlus, ukSuffixAlt, Regex.wordB],
      false, true⟩
  , -- \b[A-Za-z\s]+(?:…UK suffixes…)\s+\d+\b  /i
    ⟨"", rcat [Regex.wordB, alphaSpacePlus, ukSuffixAlt, sPlus, dPlus, Regex.wordB],
      false, true⟩
  , -- \b[A-Za-z\s]+(?:straße|strasse|straat|rue|calle|via|ulica|utca)\s+\d+[a-z]?\b  /gi
    ⟨"", rcat [Regex.wordB, alphaSpacePlus, euStreetAlt, sPlus, dPlus, ropt (cls [iaz]),
      Regex.wordB], true, true⟩
  , -- \b\d+\s+[A-Za-z\s]+(?:straße|strasse|straat|rue|calle|via|ulica|utca)\b  /gi
    ⟨"", rcat [Regex.wordB, dPlus, sPlus, alphaSpacePlus, euStreetAlt, Regex.wordB],
      true, true⟩
  , -- \b\d+\s+[A-Za-z\s]+\s*,\s*[A-Za-z\s]+\s*,\s*[A-Za-z\s]+\s*,\s*\d{4,5}\b  /gi
    ⟨"", rcat [Regex.wordB, dPlus, sPlus, alphaSpacePlus, sStar, Regex.ch ',', sStar,
      alphaSpacePlus, sStar, Regex.ch ',', sStar, alphaSpacePlus, sStar, Regex.ch ',',
      sStar, rrange Regex.dig 4 5, Regex.wordB], true, true⟩
  , -- \b[A-Za-z\s]+\s+\d+\s*,\s*[A-Za-z\s]+\s*,\s*[A-Za-z\s]+\s*,\s*\d{4,5}\b  /gi
    ⟨"", rcat [Regex.wordB, alphaSpacePlus, sPlus, dPlus, sStar, Regex.ch ',', sStar,
      alphaSpacePlus, sStar, Regex.ch ',', sStar, alphaSpacePlus, sStar, Regex.ch ',',
      sStar, rrange Regex.dig 4 5, Regex.wordB], true, true⟩ ]

/-- `this.internationalAddressPatterns` (part_011 lines 50–62), all `/gi`:
bare postal-code shapes (UK, US, Canada, Netherlands, Germany/France,
Switzerland, Poland, India, Australia, Japan). -/
def internationalAddressPatterns : List JsRegex :=
  [ ⟨"", rcat [Regex.wordB, rrange (cls [iAZ]) 1 2, rrange Regex.dig 1 2, sStar, Regex.dig,
      rexact (cls [iAZ]) 2, Regex.wordB], true, true⟩
  , ⟨"", rcat [Regex.wordB, zipTail, Regex.wordB], true, true⟩
  , ⟨"", rcat [Regex.wordB, cls [iAZ], Regex.dig, cls [iAZ], ropt Regex.spc, Regex.dig,
      cls [iAZ], Regex.dig, Regex.wordB], true, true⟩
  , ⟨"", rcat [Regex.wordB, rexact Regex.dig 4, ropt Regex.spc, rexact (cls [iAZ]) 2,
      Regex.wordB], true, true⟩
  , ⟨"", rcat [Regex.wordB, rexact Regex.dig 5, Regex.wordB], true, true⟩
  , ⟨"", rcat [Regex.wordB, rexact Regex.dig 4, Regex.wordB], true, true⟩
  , ⟨"", rcat [Regex.wordB, rexact Regex.dig 3, ropt Regex.spc, rexact Regex.dig 2,
      Regex.wordB], true, true⟩
  , ⟨"", rcat [Regex.wordB, rexact Regex.dig 6, Regex.wordB], true, true⟩
  , ⟨"", rcat [Regex.wordB, rexact Regex.dig 4, Regex.wordB], true, true⟩
  , ⟨"", rcat [Regex.wordB, rexact Regex.dig 3, Regex.ch '-', rexact Regex.dig 4,
      Regex.wordB], true, true⟩ ]

/-- `calculateAddressConfidence` (part_011 lines 490–495). -/
def calculateAddressConfidence (address : String) (patternIndex : Nat) : ℚ :=
  let baseConfidence : ℚ := 0.6 + (patternIndex : ℚ) * 0.1
  let lengthBonus : ℚ := min ((address.length : ℚ) / 100) 0.2
  min (baseConfidence + lengthBonus) 0.95

/-- `calculatePostalCodeConfidence` (part_011 lines 1245–1255). -/
def calculatePostalCodeConfidence (postalCode : String) (patternIndex : Nat) : ℚ :=
  let baseConfidence : ℚ := 0.7 + (patternIndex : ℚ) * 0.02
  let length := postalCode.length
  if 4 ≤ length ∧ length ≤ 10 then min (baseConfidence + 0.2) 0.95
  else baseConfidence

/-- `isUSAddress` (part_011 lines 586–589). -/
def isUSAddress (address : String) : Bool :=
  jsTest ⟨"", rcat [Regex.wordB, rexact (cls [iAZ]) 2, sPlus, zipTail, Regex.wordB],
    false, false⟩ address ||
  jsTest ⟨"", rcat [Regex.wordB, usSuffixAlt, Regex.wordB], false, true⟩ address

/-- `isUKAddress` (part_011 lines 591–594). -/
def isUKAddress (address : String) : Bool :=
  jsTest ⟨"", rcat [Regex.wordB, rrange (cls [iAZ]) 1 2, rrange Regex.dig 1 2, sStar,
    Regex.dig, rexact (cls [iAZ]) 2, Regex.wordB], false, false⟩ address ||
  jsTest ⟨"", rcat [Regex.wordB, ralts [rstr "Close", rstr "Crescent", rstr "Grove",
    rstr "Hill", rstr "Mews", rstr "Park", rstr "Row", rstr "Square", rstr "Walk"],
    Regex.wordB], false, true⟩ address

/-- `isEuropeanAddress` (part_011 lines 596–598). -/
def isEuropeanAddress (address : String) : Bool :=
  jsTest ⟨"", rcat [Regex.wordB, euStreetAlt, Regex.wordB], true, true⟩ address

/-- `extractUSStreet` (part_011 lines 600–603). -/
def extractUSStreet (address : String) : String :=
  (jsMatch0 ⟨"", rcat [Regex.wordB, dPlus, sPlus, alphaSpacePlus, usSuffixAlt, Regex.wordB],
    false, true⟩ address).getD ""

/-- `extractUSCity` (part_011 lines 605–608). -/
def extractUSCity (address : String) : String :=
  ((jsMatchCap ⟨"", rcat [Regex.ch ',', sStar, Regex.group 1 alphaSpacePlus, Regex.ch ',',
    sStar, rexact (cls [iAZ]) 2], false, false⟩ address 1).map String.trim).getD ""

/-- `extractUSState` (part_011 lines 610–613). -/
def extractUSState (address : String) : String :=
  (jsMatchCap ⟨"", rcat [Regex.ch ',', sStar, alphaSpacePlus, Regex.ch ',', sStar,
    Regex.group 1 (rexact (cls [iAZ]) 2)], false, false⟩ address 1).getD ""

/-- `extractUSZip` (part_011 lines 615–618). -/
def extractUSZip (address : String) : String :=
  (jsMatch0 ⟨"", rcat [Regex.wordB, zipTail, Regex.wordB], false, false⟩ address).getD ""

/-- `extractUKStreet` (part_011 lines 620–623). -/
def extractUKStreet (address : String) : String :=
  (jsMatch0 ⟨"", rcat [Regex.wordB, dPlus, sPlus, alphaSpacePlus, ukSuffixAlt, Regex.wordB],
    false, true⟩ address).getD ""

/-- `extractUKCity` (part_011 lines 625–628). -/
def extractUKCity (address : String) : String :=
  ((jsMatchCap ⟨"", rcat [Regex.ch ',', sStar, Regex.group 1 alphaSpacePlus, sStar,
    rrange (cls [iAZ]) 1 2, rrange Regex.dig 1 2, sStar, Regex.dig, rexact (cls [iAZ]) 2],
    false, false⟩ address 1).map String.trim).getD ""

/-- `extractUKPostalCode` (part_011 lines 630–633). -/
def extractUKPostalCode (address : String) : String :=
  (jsMatch0 ⟨"", rcat [Regex.wordB, rrange (cls [iAZ]) 1 2, rrange Regex.dig 1 2, sStar,
    Regex.dig, rexact (cls [iAZ]) 2, Regex.wordB], false, false⟩ address).getD ""

/-- `extractEuropeanStreet` (part_011 lines 635–642). -/
def extractEuropeanStreet (address : String) : String :=
  match jsMatch0 ⟨"", rcat [Regex.wordB, alphaSpacePlus, euStreetAlt, sPlus, dPlus,
      ropt (cls [iaz]), Regex.wordB], true, true⟩ address with
  | some s => s
  | none =>
      (jsMatch0 ⟨"", rcat [Regex.wordB, dPlus, sPlus, alphaSpacePlus, euStreetAlt,
        Regex.wordB], true, true⟩ address).getD ""

/-- `extractEuropeanCity` (part_011 lines 644–648). -/
def extractEuropeanCity (address : String) : String :=
  ((jsMatchCap ⟨"", rcat [Regex.ch ',', sStar, Regex.group 1 alphaSpacePlus, sStar,
    Regex.ch ',', sStar, rrange Regex.dig 4 5], false, false⟩ address 1).map
      String.trim).getD ""

/-- `extractEuropeanPostalCode` (part_011 lines 650–653). -/
def extractEuropeanPostalCode (address : String) : String :=
  (jsMatch0 ⟨"", rcat [Regex.wordB, rrange Regex.dig 4 5, Regex.wordB], false, false⟩
    address).getD ""

/-- `detectEuropeanCountry` (part_011 lines 655–664). -/
def detectEuropeanCountry (address : String) : String :=
  if strIncludes address "straße" || strIncludes address "strasse" then "DE"
  else if strIncludes address "straat" then "NL"
  else if strIncludes address "rue" then "FR"
  else if strIncludes address "calle" then "ES"
  else if strIncludes address "via" then "IT"
  else if strIncludes address "ulica" then "PL"
  else if strIncludes address "utca" then "HU"
  else "Unknown"

/-- `extractGenericStreet` (part_011 lines 666–670). -/
def extractGenericStreet (address : String) : String :=
  (jsMatch0 ⟨"", rcat [Regex.wordB, dPlus, sPlus, alphaSpacePlus, Regex.wordB],
    false, false⟩ address).getD ""

/-- `extractGenericCity` (part_011 lines 672–679). -/
def extractGenericCity (address : String) : String :=
  let parts := (address.splitOn ",").map String.trim
  if 2 ≤ parts.length then (parts[1]?).getD "" else ""

/-- `extractGenericPostalCode` (part_011 lines 681–685). -/
def extractGenericPostalCode (address : String) : String :=
  (jsMatch0 ⟨"", rcat [Regex.wordB, rrange Regex.dig 3 10, Regex.wordB], false, false⟩
    address).getD ""

/-- `detectAddressCountry` (part_011 lines 1214–1226): first truthy
`address.match(…)`, all case-sensitive. -/
def detectAddressCountry (address : String) : String :=
  if jsTest ⟨"", rcat [Regex.wordB, rexact (cls [iAZ]) 2, sPlus, zipTail, Regex.wordB],
      false, false⟩ address then "US"
  else if jsTest ⟨"", rcat [Regex.wordB, rrange (cls [iAZ]) 1 2, rrange Regex.dig 1 2,
      sStar, Regex.dig, rexact (cls [iAZ]) 2, Regex.wordB], false, false⟩ address then "GB"
  else if jsTest ⟨"", rcat [Regex.wordB, cls [iAZ], Regex.dig, cls [iAZ], ropt Regex.spc,
      Regex.dig, cls [iAZ], Regex.dig, Regex.wordB], false, false⟩ address then "CA"
  else if jsTest ⟨"", rcat [Regex.wordB, ralts [rstr "straße", rstr "strasse"],
      Regex.wordB], false, false⟩ address then "DE"
  else if jsTest ⟨"", rcat [Regex.wordB, ralts [rstr "rue", rstr "avenue"],
      Regex.wordB], false, false⟩ address then "FR"
  else if jsTest ⟨"", rcat [Regex.wordB, ralts [rstr "calle", rstr "avenida"],
      Regex.wordB], false, false⟩ address then "ES"
  else if jsTest ⟨"", rcat [Regex.wordB, ralts [rstr "via", rstr "strada"],
      Regex.wordB], false, false⟩ address then "IT"
  else "Unknown"

/-- `classifyAddressFormat` (part_011 lines 1228–1243). -/
def classifyAddressFormat (address : String) : String :=
  if strIncludes address "Street" || strIncludes address "Avenue" ||
      strIncludes address "Road" then "US"
  else if strIncludes address "straße" || strIncludes address "strasse" then "German"
  else if strIncludes address "rue" || strIncludes address "avenue" then "French"
  else if strIncludes address "calle" || strIncludes address "avenida" then "Spanish"
  else if strIncludes address "via" || strIncludes address "strada" then "Italian"
  else "Generic"

/-- `detectCountryFromPostalCode` (part_011 lines 1257–1278): first matching
anchored shape in object order. -/
def detectCountryFromPostalCode (postalCode : String) : String :=
  if jsTest ⟨"", anch (rcat [rexact Regex.dig 5,
      ropt (Regex.group 1 (rcat [Regex.ch '-', rexact Regex.dig 4]))]), false, false⟩
      postalCode then "US"
  else if jsTest ⟨"", anch (rcat [rrange (cls [iAZ]) 1 2, rrange Regex.dig 1 2, sStar,
      Regex.dig, rexact (cls [iAZ]) 2]), false, false⟩ postalCode then "GB"
  else if jsTest ⟨"", anch (rcat [cls [iAZ], Regex.dig, cls [iAZ], ropt Regex.spc,
      Regex.dig, cls [iAZ], Regex.dig]), false, false⟩ postalCode then "CA"
  else if jsTest ⟨"", anch (rexact Regex.dig 5), false, false⟩ postalCode then "DE"
  else if jsTest ⟨"", anch (rexact Regex.dig 5), false, false⟩ postalCode then "FR"
  else if jsTest ⟨"", anch (rcat [rexact Regex.dig 4, ropt Regex.spc,
      rexact (cls [iAZ]) 2]), false, false⟩ postalCode then "NL"
  else if jsTest ⟨"", anch (rcat [rexact Regex.dig 3, ropt Regex.spc,
      rexact Regex.dig 2]), false, false⟩ postalCode then "PL"
  else if jsTest ⟨"", anch (rexact Regex.dig 6), false, false⟩ postalCode then "IN"
  else if jsTest ⟨"", anch (rexact Regex.dig 4), false, false⟩ postalCode then "AU"
  else if jsTest ⟨"", anch (rcat [rexact Regex.dig 3, Regex.ch '-', rexact Regex.dig 4]),
      false, false⟩ postalCode then "JP"
  else "Unknown"

/-- `detectGenericCountry` (part_011 lines 687–696). -/
def detectGenericCountry (address : String) : String :=
  let postalCode := extractGenericPostalCode address
  if postalCode ≠ "" then detectCountryFromPostalCode postalCode
  else detectAddressCountry address

/-- `parseAddressComponents` (part_011 lines 547–584): the component record
in its key insertion order, filled by the first matching regional grammar
(US → UK → European → generic). -/
def parseAddressComponents (address : String) : List (String × String) :=
  if isUSAddress address then
    [("full", address), ("street", extractUSStreet address), ("city", extractUSCity address),
     ("state", extractUSState address), ("zip", extractUSZip address), ("country", "US"),
     ("format", "US")]
  else if isUKAddress address then
    [("full", address), ("street", extractUKStreet address), ("city", extractUKCity address),
     ("state", ""), ("zip", extractUKPostalCode address), ("country", "GB"),
     ("format", "UK")]
  else if isEuropeanAddress address then
    [("full", address), ("street", extractEuropeanStreet address),
     ("city", extractEuropeanCity address), ("state", ""),
     ("zip", extractEuropeanPostalCode address),
     ("country", detectEuropeanCountry address), ("format", "European")]
  else
    [("full", address), ("street", extractGenericStreet address),
     ("city", extractGenericCity address), ("state", ""),
     ("zip", extractGenericPostalCode address),
     ("country", detectGenericCountry address), ("format", "Generic")]

/-- Loop body of the standard-address loop of `detectAddresses`. -/
def addressEmit (text : List Char) (index : Nat) (i : Nat) (q : MState) : List PatternMatch :=
  let address := sliceStr text i q.i
  let confidence := calculateAddressConfidence address index
  if (0.6 : ℚ) < confidence then
    [ { type := PatternType.address, text := address, confidence := confidence,
        startIndex := i, endIndex := i + address.length,
        metadata :=
          [ ("patternIndex", MetaVal.num (index : ℚ))
          , ("components", MetaVal.strPairs (parseAddressComponents address))
          , ("country", MetaVal.str (detectAddressCountry address))
          , ("format", MetaVal.str (classifyAddressFormat address)) ]
      } ]
  else []

/-- Loop body of the postal-code loop of `detectAddresses`. -/
def postalEmit (text : List Char) (index : Nat) (i : Nat) (q : MState) : List PatternMatch :=
  let postalCode := sliceStr text i q.i
  let confidence := calculatePostalCodeConfidence postalCode index
  if (0.7 : ℚ) < confidence then
    [ { type := PatternType.address, text := postalCode, confidence := confidence,
        startIndex := i, endIndex := i + postalCode.length,
        metadata :=
          [ ("type", MetaVal.str "postal_code")
          , ("country", MetaVal.str (detectCountryFromPostalCode postalCode))
          , ("format", MetaVal.str "international") ]
      } ]
  else []

/-- `detectAddresses` (part_011 lines 261–311): both `forEach` blocks in
order — standard grammars first, then the bare postal-code shapes. -/
def detectAddresses (text : String) (fuel : Nat) : Option (List PatternMatch) :=
  runLoops text.data fuel
    (addressPatterns.enum.map (fun e => ⟨e.2, addressEmit text.data e.1⟩) ++
     internationalAddressPatterns.enum.map (fun e => ⟨e.2, postalEmit text.data e.1⟩))

/-! ## Date/time detection (`detectDateTime`, part_011 lines 313–347) -/

/-- `(?:Jan|Feb|Mar|Apr|May|Jun|Jul|Aug|Sep|Oct|Nov|Dec)` -/
def monthAlt : Regex :=
  ralts [rstr "Jan", rstr "Feb", rstr "Mar", rstr "Apr", rstr "May", rstr "Jun",
         rstr "Jul", rstr "Aug", rstr "Sep", rstr "Oct", rstr "Nov", rstr "Dec"]

/-- `(?:Monday|Tuesday|Wednesday|Thursday|Friday|Saturday|Sunday)` -/
def weekdayAlt : Regex :=
  ralts [rstr "Monday", rstr "Tuesday", rstr "Wednesday", rstr "Thursday",
         rstr "Friday", rstr "Saturday", rstr "Sunday"]

/-- `\d{1,2}:(?:\d{2})?\s*(?:AM|PM|am|pm)?` — the clock tail shared by the
natural-language and event patterns. -/
def clockTail : Regex :=
  rcat [rrange Regex.dig 1 2, Regex.ch ':', ropt (rexact Regex.dig 2), sStar,
        ropt (ralts [rstr "AM", rstr "PM", rstr "am", rstr "pm"])]

/-- `(?:at\s+)?` -/
def atOpt : Regex := ropt (rcat [rstr "at", sPlus])

/-- `this.dateTimePatterns` (part_011 lines 65–92) in order: standard dates,
natural-language dates, relative times, ISO/international, event phrases. -/
def dateTimePatterns : List JsRegex :=
  [ -- \b(?:Jan|…|Dec)\s+\d{1,2},?\s+\d{4}\b  /i
    ⟨"", rcat [Regex.wordB, monthAlt, sPlus, rrange Regex.dig 1 2, ropt (Regex.ch ','),
      sPlus, rexact Regex.dig 4, Regex.wordB], false, true⟩
  , -- \b\d{1,2}\/(\d{1,2})\/\d{2,4}\b
    ⟨"", rcat [Regex.wordB, rrange Regex.dig 1 2, Regex.ch '/',
      Regex.group 1 (rrange Regex.dig 1 2), Regex.ch '/', rrange Regex.dig 2 4,
      Regex.wordB], false, false⟩
  , -- \b\d{1,2}-(\d{1,2})-\d{2,4}\b
    ⟨"", rcat [Regex.wordB, rrange Regex.dig 1 2, Regex.ch '-',
      Regex.group 1 (rrange Regex.dig 1 2), Regex.ch '-', rrange Regex.dig 2 4,
      Regex.wordB], false, false⟩
  , -- \b\d{4}-(\d{1,2})-(\d{1,2})\b
    ⟨"", rcat [Regex.wordB, rexact Regex.dig 4, Regex.ch '-',
      Regex.group 1 (rrange Regex.dig 1 2), Regex.ch '-',
      Regex.group 2 (rrange Regex.dig 1 2), Regex.wordB], false, false⟩
  , -- \b(?:Monday|…|Sunday)\s+(?:at\s+)?\d{1,2}:(?:\d{2})?\s*(?:AM|PM|am|pm)?\b  /i
    ⟨"", rcat [Regex.wordB, weekdayAlt, sPlus, atOpt, clockTail, Regex.wordB], false, true⟩
  , -- \b(?:Today|Tomorrow|Yesterday)\s+(?:at\s+)?\d{1,2}:(?:\d{2})?\s*(?:AM|PM|am|pm)?\b  /i
    ⟨"", rcat [Regex.wordB, ralts [rstr "Today", rstr "Tomorrow", rstr "Yesterday"], sPlus,
      atOpt, clockTail, Regex.wordB], false, true⟩
  , -- \b(?:Next|Last)\s+(?:Monday|…|Sunday)\b  /i
    ⟨"", rcat [Regex.wordB, ralts [rstr "Next", rstr "Last"], sPlus, weekdayAlt,
      Regex.wordB], false, true⟩
  , -- \b(?:This|Next|Last)\s+(?:week|month|year)\b  /i
    ⟨"", rcat [Regex.wordB, ralts [rstr "This", rstr "Next", rstr "Last"], sPlus,
      ralts [rstr "week", rstr "month", rstr "year"], Regex.wordB], false, true⟩
  , -- \b(?:in\s+)?(\d+)\s+(?:minutes?|mins?|hours?|days?|weeks?|months?|years?)\s+(?:from\s+now|ago|later)\b  /i
    ⟨"", rcat [Regex.wordB, ropt (rcat [rstr "in", sPlus]), Regex.group 1 dPlus, sPlus,
      ralts [wordOptS "minute", wordOptS "min", wordOptS "hour", wordOptS "day",
             wordOptS "week", wordOptS "month", wordOptS "year"], sPlus,
      ralts [rcat [rstr "from", sPlus, rstr "now"], rstr "ago", rstr "later"],
      Regex.wordB], false, true⟩
  , -- \b(?:at\s+)?(\d{1,2}):(\d{2})\s*(?:AM|PM|am|pm)?\b  /i
    ⟨"", rcat [Regex.wordB, atOpt, Regex.group 1 (rrange Regex.dig 1 2), Regex.ch ':',
      Regex.group 2 (rexact Regex.dig 2), sStar,
      ropt (ralts [rstr "AM", rstr "PM", rstr "am", rstr "pm"]), Regex.wordB], false, true⟩
  , -- \b(?:noon|midnight|midday)\b  /i
    ⟨"", rcat [Regex.wordB, ralts [rstr "noon", rstr "midnight", rstr "midday"],
      Regex.wordB], false, true⟩
  , -- \b\d{4}-\d{2}-\d{2}T\d{2}:\d{2}:\d{2}(?:Z|[+-]\d{2}:\d{2})?\b
    ⟨"", rcat [Regex.wordB, rexact Regex.dig 4, Regex.ch '-', rexact Regex.dig 2,
      Regex.ch '-', rexact Regex.dig 2, Regex.ch 'T', rexact Regex.dig 2, Regex.ch ':',
      rexact Regex.dig 2, Regex.ch ':', rexact Regex.dig 2,
      ropt (ralts [rstr "Z", rcat [cls [ClassItem.one '+', ClassItem.one '-'],
        rexact Regex.dig 2, Regex.ch ':', rexact Regex.dig 2]]), Regex.wordB],
      false, false⟩
  , -- \b\d{2}\.\d{2}\.\d{4}\b
    ⟨"", rcat [Regex.wordB, rexact Regex.dig 2, Regex.ch '.', rexact Regex.dig 2,
      Regex.ch '.', rexact Regex.dig 4, Regex.wordB], false, false⟩
  , -- \b\d{2}\/\d{2}\/\d{4}\b
    ⟨"", rcat [Regex.wordB, rexact Regex.dig 2, Regex.ch '/', rexact Regex.dig 2,
      Regex.ch '/', rexact Regex.dig 4, Regex.wordB], false, false⟩
  , -- \b(?:meeting|appointment|call|event)\s+(?:on\s+)?(?:Monday|…)\s+(?:at\s+)?…\b  /i
    ⟨"", rcat [Regex.wordB, ralts [rstr "meeting", rstr "appointment", rstr "call",
      rstr "event"], sPlus, ropt (rcat [rstr "on", sPlus]), weekdayAlt, sPlus, atOpt,
      clockTail, Regex.wordB], false, true⟩
  , -- \b(?:team\s+)?(?:meeting|standup|review)\s+(?:every\s+)?(?:Monday|…)\s+(?:at\s+)?…\b  /i
    ⟨"", rcat [Regex.wordB, ropt (rcat [rstr "team", sPlus]),
      ralts [rstr "meeting", rstr "standup", rstr "review"], sPlus,
      ropt (rcat [rstr "every", sPlus]), weekdayAlt, sPlus, atOpt, clockTail,
      Regex.wordB], false, true⟩ ]

/-- `calculateDateTimeConfidence` (part_011 lines 497–500). -/
def calculateDateTimeConfidence (_dateTime : String) (patternIndex : Nat) : ℚ :=
  min (0.7 + (patternIndex : ℚ) * 0.05) 0.95

/-- `isEventRelated` (part_011 lines 1030–1033). -/
def isEventRelated (text : String) : Bool :=
  ["meeting", "appointment", "call", "event", "standup", "review", "team",
   "schedule"].any (fun keyword => strIncludes text.toLower keyword)

/-- `classifyDateTimeType` (part_011 lines 738–745): the fixed priority
`T+Z → iso`, `: → time`, separator → `date`, `Today/Tomorrow/Yesterday →
relative`, event keyword → `event`. -/
def classifyDateTimeType (dateTime : String) : String :=
  if strIncludes dateTime "T" && strIncludes dateTime "Z" then "iso"
  else if strIncludes dateTime ":" then "time"
  else if strIncludes dateTime "/" || strIncludes dateTime "-" ||
      strIncludes dateTime "." then "date"
  else if strIncludes dateTime "Today" || strIncludes dateTime "Tomorrow" ||
      strIncludes dateTime "Yesterday" then "relative"
  else if isEventRelated dateTime then "event"
  else "unknown"

/-- `getSuggestedDateTimeActions` (part_011 lines 1280–1296), driven by the
parsed type and event flag. -/
def getSuggestedDateTimeActions (typ : String) (isEvent : Bool) : List String :=
  (if typ == "date" || typ == "relative" then ["calendar"] else []) ++
  (if typ == "time" then ["reminder"] else []) ++
  (if isEvent then ["calendar", "reminder", "share"] else [])

/-- Loop body of `detectDateTime` for the pattern at `index`.  The source
stores the whole `parseDateTime` record under the metadata key `parsed`; its
scalar fields (`type`, `isRelative`, `isEvent`) are modelled — `parsed.type`
is `classifyDateTimeType`, `parsed.isRelative` is set exactly in the
`relative` branch and `parsed.isEvent` in the `event` branch or when
`isEventRelated` holds — while the deep date decomposition inside `parsed`
(which goes through the JS `Date` constructor) is outside the embedding and
the `parsed` key itself is omitted; no claim depends on it. -/
def dateTimeEmit (text : List Char) (index : Nat) (i : Nat) (q : MState) : List PatternMatch :=
  let dateTime := sliceStr text i q.i
  let confidence := calculateDateTimeConfidence dateTime index
  if (0.7 : ℚ) < confidence then
    let typ := classifyDateTimeType dateTime
    let isRelative := typ == "relative"
    let isEvent := typ == "event" || isEventRelated dateTime
    [ { type := PatternType.dateTime, text := dateTime, confidence := confidence,
        startIndex := i, endIndex := i + dateTime.length,
        metadata :=
          [ ("patternIndex", MetaVal.num (index : ℚ))
          , ("type", MetaVal.str typ)
          , ("isRelative", MetaVal.boolean isRelative)
          , ("isEvent", MetaVal.boolean isEvent)
          , ("suggestedActions", MetaVal.strList (getSuggestedDateTimeActions typ isEvent)) ]
      } ]
  else []

/-- `detectDateTime` (part_011 lines 313–347). -/
def detectDateTime (text : String) (fuel : Nat) : Option (List PatternMatch) :=
  runLoops text.data fuel
    (dateTimePatterns.enum.map (fun e => ⟨e.2, dateTimeEmit text.data e.1⟩))

/-! ## `detectPatterns` (part_011 lines 174–228) -/

/-- The message of the error thrown before `initialize()`. -/
def notInitializedMsg : String := "PatternRecognitionEngine not initialized"

/-- `detectPatterns`: throws when uninitialized; otherwise runs the eight
detector families in source order and resolves conflicts.  The outer
`Except` is the JS throw; the inner `Option` is the loop budget — `none`
means some detector loop failed to finish within `fuel` iterations (and
`none` for every `fuel` means the call never returns). -/
def detectPatterns (isInitialized : Bool) (text : String) (fuel : Nat) :
    Except String (Option (List PatternMatch)) :=
  if isInitialized = false then Except.error notInitializedMsg
  else Except.ok (do
    let emailMatches ← detectEmails text fuel
    let phoneMatches ← detectPhoneNumbers text fuel
    let urlMatches ← detectUrls text fuel
    let trackingMatches ← detectTrackingNumbers text fuel
    let addressMatches ← detectAddresses text fuel
    let dateTimeMatches ← detectDateTime text fuel
    let currencyMatches ← detectCurrency text fuel
    let unitMatches ← detectUnits text fuel
    pure (sortAndDeduplicatePatterns
      (emailMatches ++ phoneMatches ++ urlMatches ++ trackingMatches ++
       addressMatches ++ dateTimeMatches ++ currencyMatches ++ unitMatches)))

/-- Shape of every candidate the detectors can emit: positive-width span,
non-negative confidence, at most 1.4 overall, and at most 0.95 unless the
candidate is a CURRENCY or UNIT match (whose scores are unclamped). -/
def EmittedOk (m : PatternMatch) : Prop :=
  m.startIndex < m.endIndex ∧ 0 ≤ m.confidence ∧ m.confidence ≤ 1.4 ∧
    (m.type = PatternType.currency ∨ m.type = PatternType.unit ∨ m.confidence ≤ 0.95)

/-- The single currency match the engine produces for `"€100"` (used to
instantiate the amended C4 at a concrete input). -/
def euro100Match : PatternMatch :=
  { type := PatternType.currency, text := "€100", confidence := 0.85,
    startIndex := 0, endIndex := 4,
    metadata :=
      [ ("patternIndex", MetaVal.num 1)
      , ("amount", MetaVal.numOrNaN (some 100))
      , ("symbol", MetaVal.str "€")
      , ("code", MetaVal.str "EUR")
      , ("country", MetaVal.str "Unknown")
      , ("conversionRates", MetaVal.numPairs []) ] }

/-! ### Resolver lemmas -/

theorem patternsOverlap_comm (a b : PatternMatch) : patternsOverlap a b = patternsOverlap b a := by
  simp [patternsOverlap, Bool.or_comm]

theorem insertByConfidence_perm (m : PatternMatch) (l : List PatternMatch) :
    List.Perm (insertByConfidence m l) (m :: l) := by
  induction l with
  | nil => simp [insertByConfidence]
  | cons x xs ih =>
    by_cases h : m.confidence < x.confidence
    · simp only [insertByConfidence, if_pos h]
      exact (ih.cons x).trans (List.Perm.swap m x xs)
    · simp [insertByConfidence, if_neg h]

theorem sortByConfidenceDesc_perm (l : List PatternMatch) :
    List.Perm (sortByConfidenceDesc l) l := by
  induction l with
  | nil => simp [sortByConfidenceDesc]
  | cons x xs ih =>
    exact (insertByConfidence_perm x (sortByConfidenceDesc xs)).trans (ih.cons x)

theorem insertByConfidence_sorted (m : PatternMatch) (l : List PatternMatch)
    (h : List.Sorted (fun a b => b.confidence ≤ a.confidence) l) :
    List.Sorted (fun a b => b.confidence ≤ a.confidence) (insertByConfidence m l) := by
  induction l with
  | nil => simp [insertByConfidence, List.sorted_singleton]
  | cons x xs ih =>
    rcases (List.pairwise_cons.mp h) with ⟨hx, hxs⟩
    by_cases hc : m.confidence < x.confidence
    · simp only [insertByConfidence, if_pos hc]
      refine List.Pairwise.cons ?_ (ih hxs)
      intro b hb
      rcases List.mem_cons.mp ((insertByConfidence_perm m xs).mem_iff.mp hb) with rfl | hbxs
      · exact le_of_lt hc
      · exact hx b hbxs
    · push_neg at hc
      simp only [insertByConfidence, if_neg (not_lt.mpr hc)]
      refine List.Pairwise.cons ?_ (List.Pairwise.cons hx hxs)
      intro b hb
      rcases List.mem_cons.mp hb with rfl | hbxs
      · exact hc
      · exact le_trans (hx b hbxs) hc

theorem sortByConfidenceDesc_sorted (l : List PatternMatch) :
    List.Sorted (fun a b => b.confidence ≤ a.confidence) (sortByConfidenceDesc l) := by
  induction l with
  | nil => simp [sortByConfidenceDesc, List.sorted_nil]
  | cons x xs ih => exact insertByConfidence_sorted x _ ih

theorem dedupeStep_of_overlap (acc : List PatternMatch) (p : PatternMatch)
    (h : (acc.any fun existing => patternsOverlap p existing) = true) :
    dedupeStep acc p = acc := by
  simp [dedupeStep, h]

theorem dedupeStep_of_no_overlap (acc : List PatternMatch) (p : PatternMatch)
    (h : ¬(acc.any fun existing => patternsOverlap p existing) = true) :
    dedupeStep acc p = acc ++ [p] := by
  simp only [dedupeStep, if_neg h]

/-- The dedupe fold only appends: the accumulator is a prefix of the result. -/
theorem dedupe_foldl_prefix (l : List PatternMatch) :
    ∀ acc : List PatternMatch, ∃ t, l.foldl dedupeStep acc = acc ++ t := by
  induction l with
  | nil => exact fun acc => ⟨[], by simp⟩
  | cons p rest ih =>
    intro acc
    simp only [List.foldl_cons]
    by_cases h : (acc.any fun existing => patternsOverlap p existing) = true
    · rw [dedupeStep_of_overlap acc p h]
      exact ih acc
    · rw [dedupeStep_of_no_overlap acc p h]
      rcases ih (acc ++ [p]) with ⟨t, ht⟩
      exact ⟨p :: t, by simpa using ht⟩

/-- Invariant version of the non-overlap property of the dedupe fold. -/
theorem dedupe_foldl_pairwise (l : List PatternMatch) :
    ∀ acc : List PatternMatch,
      List.Pairwise (fun a b => patternsOverlap a b = false) acc →
      List.Pairwise (fun a b => patternsOverlap a b = false) (l.foldl dedupeStep acc) := by
  induction l with
  | nil => intro acc hacc; simpa using hacc
  | cons p rest ih =>
    intro acc hacc
    simp only [List.foldl_cons]
    by_cases h : (acc.any fun existing => patternsOverlap p existing) = true
    · rw [dedupeStep_of_overlap acc p h]
      exact ih acc hacc
    · rw [dedupeStep_of_no_overlap acc p h]
      refine ih (acc ++ [p]) ?_
      have hnone : ∀ a ∈ acc, patternsOverlap p a = false := by
        intro a ha
        rcases hb : patternsOverlap p a with _ | _
        · rfl
        · exact absurd (List.any_eq_true.mpr ⟨a, ha, hb⟩) h
      refine List.pairwise_append.mpr ⟨hacc, by simp, ?_⟩
      intro a ha b hb
      simp only [List.mem_singleton] at hb
      subst hb
      rw [patternsOverlap_comm]
      exact hnone a ha

/-- Invariant version of the sortedness of the dedupe fold output. -/
theorem dedupe_foldl_sorted (l : List PatternMatch) :
    ∀ acc : List PatternMatch,
      List.Sorted (fun a b => b.confidence ≤ a.confidence) l →
      List.Sorted (fun a b => b.confidence ≤ a.confidence) acc →
      (∀ a ∈ acc, ∀ x ∈ l, x.confidence ≤ a.confidence) →
      List.Sorted (fun a b => b.confidence ≤ a.confidence) (l.foldl dedupeStep acc) := by
  induction l with
  | nil => intro acc _ hacc _; simpa using hacc
  | cons p rest ih =>
    intro acc hl hacc hcross
    rcases (List.pairwise_cons.mp hl) with ⟨hp, hrest⟩
    simp only [List.foldl_cons]
    by_cases h : (acc.any fun existing => patternsOverlap p existing) = true
    · rw [dedupeStep_of_overlap acc p h]
      refine ih acc hrest hacc ?_
      intro a ha x hx
      exact hcross a ha x (List.mem_cons_of_mem p hx)
    · rw [dedupeStep_of_no_overlap acc p h]
      refine ih (acc ++ [p]) hrest ?_ ?_
      · refine List.pairwise_append.mpr ⟨hacc, by simp, ?_⟩
        intro a ha b hb
        cases List.mem_singleton.mp hb
        exact hcross a ha _ (List.mem_cons_self _ rest)
      · intro a ha x hx
        rcases List.mem_append.mp ha with ha' | ha'
        · exact hcross a ha' x (List.mem_cons_of_mem p hx)
        · simp only [List.mem_singleton] at ha'
          subst ha'
          exact hp x hx

/-- Every input element of the dedupe fold either survives or overlaps a
surviving element of no smaller confidence. -/
theorem dedupe_foldl_covered (l : List PatternMatch) :
    ∀ acc : List PatternMatch,
      (∀ a ∈ acc, ∀ x ∈ l, x.confidence ≤ a.confidence) →
      List.Sorted (fun a b => b.confidence ≤ a.confidence) l →
      ∀ c ∈ l, c ∉ l.foldl dedupeStep acc →
        ∃ k ∈ l.foldl dedupeStep acc, patternsOverlap c k = true ∧ c.confidence ≤ k.confidence := by
  induction l with
  | nil => intro acc _ _ c hc; simp at hc
  | cons p rest ih =>
    intro acc hcross hl c hc hcnot
    rcases (List.pairwise_cons.mp hl) with ⟨hp, hrest⟩
    simp only [List.foldl_cons] at hcnot ⊢
    by_cases h : (acc.any fun existing => patternsOverlap p existing) = true
    · -- p is dropped because it overlaps something already accepted
      rw [dedupeStep_of_overlap acc p h] at hcnot ⊢
      rcases List.mem_cons.mp hc with rfl | hcrest
      · rcases List.any_eq_true.mp h with ⟨k, hk, hko⟩
        rcases dedupe_foldl_prefix rest acc with ⟨t, ht⟩
        refine ⟨k, ?_, by simpa using hko, hcross k hk c (List.mem_cons_self c rest)⟩
        rw [ht]; exact List.mem_append_left t hk
      · refine ih acc ?_ hrest c hcrest hcnot
        intro a ha x hx
        exact hcross a ha x (List.mem_cons_of_mem p hx)
    · -- p is accepted
      rw [dedupeStep_of_no_overlap acc p h] at hcnot ⊢
      rcases List.mem_cons.mp hc with rfl | hcrest
      · exfalso
        rcases dedupe_foldl_prefix rest (acc ++ [c]) with ⟨t, ht⟩
        exact hcnot (by rw [ht]; simp)
      · refine ih (acc ++ [p]) ?_ hrest c hcrest hcnot
        intro a ha x hx
        rcases List.mem_append.mp ha with ha' | ha'
        · exact hcross a ha' x (List.mem_cons_of_mem p hx)
        · simp only [List.mem_singleton] at ha'
          subst ha'
          exact hp x hx

/-! ### Matcher lemmas: every match moves forward by at least `minLen` and
consumes exactly `q.i - p.i` characters of the subject. -/

theorem consumeIf_spec (test : Char → Bool) (p q : MState) (h : q ∈ consumeIf test p) :
    q.i = p.i + 1 ∧ q.i + q.rest.length = p.i + p.rest.length := by
  unfold consumeIf at h
  cases hr : p.rest with
  | nil => rw [hr] at h; simp at h
  | cons x xs =>
    rw [hr] at h
    by_cases ht : test x = true
    · simp only [if_pos ht, List.mem_singleton] at h
      subst h
      refine ⟨rfl, ?_⟩
      simp only [hr, List.length_cons]
      omega
    · simp [if_neg ht] at h

theorem matchRe_spec (ci : Bool) : ∀ (fuel : Nat) (r : Regex) (p q : MState),
    q ∈ matchRe ci fuel r p →
    p.i + r.minLen ≤ q.i ∧ q.i + q.rest.length = p.i + p.rest.length := by
  intro fuel
  induction fuel with
  | zero => intro r p q hq; simp [matchRe] at hq
  | succ f ih =>
    intro r p q hq
    cases r with
    | eps =>
        simp only [matchRe, List.mem_singleton] at hq
        subst hq; simp [Regex.minLen]
    | ch c =>
        simp only [matchRe] at hq
        have := consumeIf_spec _ p q hq
        simp only [Regex.minLen]; omega
    | cc neg items =>
        simp only [matchRe] at hq
        have := consumeIf_spec _ p q hq
        simp only [Regex.minLen]; omega
    | dig =>
        simp only [matchRe] at hq
        have := consumeIf_spec _ p q hq
        simp only [Regex.minLen]; omega
    | ndig =>
        simp only [matchRe] at hq
        have := consumeIf_spec _ p q hq
        simp only [Regex.minLen]; omega
    | spc =>
        simp only [matchRe] at hq
        have := consumeIf_spec _ p q hq
        simp only [Regex.minLen]; omega
    | nspc =>
        simp only [matchRe] at hq
        have := consumeIf_spec _ p q hq
        simp only [Regex.minLen]; omega
    | wrd =>
        simp only [matchRe] at hq
        have := consumeIf_spec _ p q hq
        simp only [Regex.minLen]; omega
    | nwrd =>
        simp only [matchRe] at hq
        have := consumeIf_spec _ p q hq
        simp only [Regex.minLen]; omega
    | bol =>
        simp only [matchRe] at hq
        split at hq
        · simp only [List.mem_singleton] at hq; subst hq; simp [Regex.minLen]
        · simp at hq
    | eol =>
        simp only [matchRe] at hq
        split at hq
        · simp only [List.mem_singleton] at hq; subst hq; simp [Regex.minLen]
        · simp at hq
    | wordB =>
        simp only [matchRe] at hq
        split at hq
        · simp only [List.mem_singleton] at hq; subst hq; simp [Regex.minLen]
        · simp at hq
    | cat r1 r2 =>
        simp only [matchRe] at hq
        rcases List.mem_flatMap.mp hq with ⟨mid, hmid, hq2⟩
        have h1 := ih r1 p mid hmid
        have h2 := ih r2 mid q hq2
        simp only [Regex.minLen]; omega
    | alt r1 r2 =>
        simp only [matchRe] at hq
        rcases List.mem_append.mp hq with h | h
        · have := ih r1 p q h
          simp only [Regex.minLen]; omega
        · have := ih r2 p q h
          simp only [Regex.minLen]; omega
    | group idx r1 =>
        simp only [matchRe] at hq
        rcases List.mem_map.mp hq with ⟨q', hq', rfl⟩
        have := ih r1 p q' hq'
        simpa [Regex.minLen] using this
    | rep r1 m extra =>
        cases m with
        | succ n =>
            simp only [matchRe] at hq
            rcases List.mem_flatMap.mp hq with ⟨mid, hmid, hq2⟩
            have h1 := ih r1 p mid hmid
            have h2 := ih (Regex.rep r1 n extra) mid q hq2
            simp only [Regex.minLen] at h2 ⊢
            have hs : (n + 1) * r1.minLen = n * r1.minLen + r1.minLen := Nat.succ_mul n r1.minLen
            omega
        | zero =>
            cases extra with
            | none =>
                simp only [matchRe] at hq
                rcases List.mem_append.mp hq with h | h
                · rcases List.mem_flatMap.mp h with ⟨mid, hmid, hq2⟩
                  rcases List.mem_filter.mp hmid with ⟨hmid', _⟩
                  have h1 := ih r1 p mid hmid'
                  have h2 := ih (Regex.rep r1 0 none) mid q hq2
                  simp only [Regex.minLen] at h2 ⊢
                  omega
                · simp only [List.mem_singleton] at h; subst h; simp [Regex.minLen]
            | some k =>
                cases k with
                | zero =>
                    simp only [matchRe, List.mem_singleton] at hq
                    subst hq; simp [Regex.minLen]
                | succ k' =>
                    simp only [matchRe] at hq
                    rcases List.mem_append.mp hq with h | h
                    · rcases List.mem_flatMap.mp h with ⟨mid, hmid, hq2⟩
                      rcases List.mem_filter.mp hmid with ⟨hmid', _⟩
                      have h1 := ih r1 p mid hmid'
                      have h2 := ih (Regex.rep r1 0 (some k')) mid q hq2
                      simp only [Regex.minLen] at h2 ⊢
                      omega
                    · simp only [List.mem_singleton] at h; subst h; simp [Regex.minLen]

theorem findSome?_exists {α β : Type} (l : List α) (f : α → Option β) (b : β)
    (h : l.findSome? f = some b) : ∃ a ∈ l, f a = some b := by
  induction l with
  | nil => simp [List.findSome?] at h
  | cons x xs ih =>
    rw [List.findSome?_cons] at h
    cases hx : f x with
    | some v =>
        rw [hx] at h; simp at h
        exact ⟨x, List.mem_cons_self x xs, by rw [hx, h]⟩
    | none =>
        rw [hx] at h; simp at h
        rcases ih h with ⟨a, ha, hfa⟩
        exact ⟨a, List.mem_cons_of_mem x ha, hfa⟩

theorem searchFrom_spec (ci : Bool) (re : Regex) (text : List Char) (start i : Nat)
    (q : MState) (h : searchFrom ci re text start = some (i, q)) :
    i + re.minLen ≤ q.i ∧ q.i ≤ text.length := by
  unfold searchFrom at h
  rcases findSome?_exists _ _ _ h with ⟨j, hj, hfj⟩
  cases hm : matchAt ci re text j with
  | none => rw [hm] at hfj; simp at hfj
  | some q' =>
      rw [hm] at hfj
      have hpair : (j, q') = (i, q) := by simpa using hfj
      injection hpair with h1 h2
      rw [List.mem_range'] at hj
      have hmem : q' ∈ matchRe ci (matchFuel text re) re (stateAt text j) := by
        unfold matchAt at hm
        exact List.mem_of_mem_head? hm
      have hspec := matchRe_spec ci _ re (stateAt text j) q' hmem
      simp only [stateAt, List.length_drop] at hspec
      rw [← h1, ← h2]
      omega

/-! ### Loop lemmas: where the emitted candidates come from. -/

theorem execLoop_mem (re : JsRegex) (text : List Char)
    (emit : Nat → MState → List PatternMatch) :
    ∀ (fuel li : Nat) (l : List PatternMatch) (pm : PatternMatch),
      execLoop re text emit fuel li = some l → pm ∈ l →
      ∃ s i q, searchFrom re.ci re.ast text s = some (i, q) ∧ pm ∈ emit i q := by
  intro fuel
  induction fuel with
  | zero => intro li l pm h _; simp [execLoop] at h
  | succ f ih =>
      intro li l pm h hpm
      simp only [execLoop] at h
      split at h
      next hs =>
          obtain rfl : ([] : List PatternMatch) = l := by simpa using h
          simp at hpm
      next i q hs =>
          cases hrec : execLoop re text emit f (if re.global then q.i else li) with
          | none => rw [hrec] at h; simp at h
          | some later =>
              rw [hrec] at h
              obtain rfl : emit i q ++ later = l := by simpa using h
              rcases List.mem_append.mp hpm with hp | hp
              · exact ⟨_, i, q, hs, hp⟩
              · exact ih _ later pm hrec hp

theorem runLoops_mem (text : List Char) :
    ∀ (specs : List LoopSpec) (fuel : Nat) (l : List PatternMatch) (pm : PatternMatch),
      runLoops text fuel specs = some l → pm ∈ l →
      ∃ spec ∈ specs, ∃ s i q, searchFrom spec.re.ci spec.re.ast text s = some (i, q) ∧
        pm ∈ spec.emit i q := by
  intro specs
  induction specs with
  | nil =>
      intro fuel l pm h hpm
      simp only [runLoops, Option.some.injEq] at h
      subst h; simp at hpm
  | cons spec rest ih =>
      intro fuel l pm h hpm
      simp only [runLoops] at h
      split at h
      next he => simp at h
      next ms he =>
          cases hr : runLoops text fuel rest with
          | none => rw [hr] at h; simp at h
          | some later =>
              rw [hr] at h
              obtain rfl : ms ++ later = l := by simpa using h
              rcases List.mem_append.mp hpm with hp | hp
              · rcases execLoop_mem spec.re text spec.emit fuel 0 ms pm he hp with
                  ⟨s2, i, q, hsf, hemit⟩
                exact ⟨spec, List.mem_cons_self spec rest, s2, i, q, hsf, hemit⟩
              · rcases ih fuel later pm hr hp with ⟨spec', hspec', rest'⟩
                exact ⟨spec', List.mem_cons_of_mem spec hspec', rest'⟩

theorem sliceStr_length (text : List Char) (i j : Nat) :
    (sliceStr text i j).length = min (j - i) (text.length - i) := by
  simp [sliceStr, String.length]

/-- A successful search against a pattern that must consume at least one
character yields a non-degenerate span. -/
theorem emit_span (text : List Char) (re : JsRegex) (s i : Nat) (q : MState)
    (hsf : searchFrom re.ci re.ast text s = some (i, q)) (hmin : 1 ≤ re.ast.minLen) :
    i < i + (sliceStr text i q.i).length := by
  rcases searchFrom_spec re.ci re.ast text s i q hsf with ⟨h1, h2⟩
  rw [sliceStr_length]
  omega

/-! ### Confidence-range lemmas for the per-category scoring functions. -/

theorem calculateEmailConfidence_bounds (email : String) :
    0 ≤ calculateEmailConfidence email ∧ calculateEmailConfidence email ≤ 0.95 := by
  simp only [calculateEmailConfidence]
  split_ifs <;> norm_num

theorem calculatePhoneConfidence_bounds (phone : String) :
    0 ≤ calculatePhoneConfidence phone ∧ calculatePhoneConfidence phone ≤ 0.95 := by
  simp only [calculatePhoneConfidence]
  split_ifs <;> norm_num

theorem calculateUrlConfidence_bounds (url : String) :
    0 ≤ calculateUrlConfidence url ∧ calculateUrlConfidence url ≤ 0.95 := by
  simp only [calculateUrlConfidence]
  split_ifs <;> norm_num

theorem calculateTrackingConfidence_bounds (n c : String) :
    0 ≤ calculateTrackingConfidence n c ∧ calculateTrackingConfidence n c ≤ 0.95 := by
  simp only [calculateTrackingConfidence]
  split_ifs <;> constructor <;>
    first
      | exact min_le_right _ _
      | exact le_min (by norm_num) (by norm_num)
      | norm_num

theorem calculateAddressConfidence_bounds (a : String) (idx : Nat) :
    0 ≤ calculateAddressConfidence a idx ∧ calculateAddressConfidence a idx ≤ 0.95 := by
  simp only [calculateAddressConfidence]
  constructor
  · refine le_min ?_ (by norm_num)
    have h1 : (0 : ℚ) ≤ 0.6 + (idx : ℚ) * 0.1 := by positivity
    have h2 : (0 : ℚ) ≤ min ((a.length : ℚ) / 100) 0.2 :=
      le_min (by positivity) (by norm_num)
    linarith
  · exact min_le_right _ _

theorem calculatePostalCodeConfidence_bounds (pc : String) (idx : Nat) (hidx : idx ≤ 9) :
    0 ≤ calculatePostalCodeConfidence pc idx ∧
      calculatePostalCodeConfidence pc idx ≤ 0.95 := by
  have hq : (idx : ℚ) ≤ 9 := by exact_mod_cast hidx
  simp only [calculatePostalCodeConfidence]
  split_ifs
  · constructor
    · refine le_min ?_ (by norm_num); positivity
    · exact min_le_right _ _
  · constructor
    · positivity
    · linarith

theorem calculateDateTimeConfidence_bounds (s : String) (idx : Nat) :
    0 ≤ calculateDateTimeConfidence s idx ∧ calculateDateTimeConfidence s idx ≤ 0.95 := by
  simp only [calculateDateTimeConfidence]
  constructor
  · refine le_min ?_ (by norm_num); positivity
  · exact min_le_right _ _

/-! ### Every candidate a detector emits satisfies `EmittedOk`. -/

theorem detectEmails_mem (text : String) (fuel : Nat) (l : List PatternMatch)
    (m : PatternMatch) (h : detectEmails text fuel = some l) (hm : m ∈ l) : EmittedOk m := by
  unfold detectEmails at h
  rcases runLoops_mem text.data _ fuel l m h hm with ⟨spec, hspec, s, i, q, hsf, hemit⟩
  rcases List.mem_map.mp hspec with ⟨re, hre, rfl⟩
  have hmin : ∀ re ∈ emailPatterns, 1 ≤ re.ast.minLen := by decide
  simp only [emailEmit] at hemit
  split at hemit
  next hconf =>
    obtain rfl := List.mem_singleton.mp hemit
    rcases calculateEmailConfidence_bounds (sliceStr text.data i q.i) with ⟨hb0, hb1⟩
    exact ⟨emit_span text.data re s i q hsf (hmin re hre), hb0, by linarith,
      Or.inr (Or.inr hb1)⟩
  next => simp at hemit

theorem detectPhoneNumbers_mem (text : String) (fuel : Nat) (l : List PatternMatch)
    (m : PatternMatch) (h : detectPhoneNumbers text fuel = some l) (hm : m ∈ l) :
    EmittedOk m := by
  unfold detectPhoneNumbers at h
  rcases runLoops_mem text.data _ fuel l m h hm with ⟨spec, hspec, s, i, q, hsf, hemit⟩
  rcases List.mem_map.mp hspec with ⟨re, hre, rfl⟩
  have hmin : ∀ re ∈ phonePatterns, 1 ≤ re.ast.minLen := by decide
  simp only [phoneEmit] at hemit
  split at hemit
  next hconf =>
    obtain rfl := List.mem_singleton.mp hemit
    rcases calculatePhoneConfidence_bounds (sliceStr text.data i q.i) with ⟨hb0, hb1⟩
    exact ⟨emit_span text.data re s i q hsf (hmin re hre), hb0, by linarith,
      Or.inr (Or.inr hb1)⟩
  next => simp at hemit

theorem detectUrls_mem (text : String) (fuel : Nat) (l : List PatternMatch)
    (m : PatternMatch) (h : detectUrls text fuel = some l) (hm : m ∈ l) : EmittedOk m := by
  unfold detectUrls at h
  rcases runLoops_mem text.data _ fuel l m h hm with ⟨spec, hspec, s, i, q, hsf, hemit⟩
  have hspec' : spec = ⟨urlRegex, urlEmit text.data⟩ := by
    simpa using hspec
  subst hspec'
  have hmin : 1 ≤ urlRegex.ast.minLen := by decide
  simp only [urlEmit] at hemit
  split at hemit
  next hconf =>
    obtain rfl := List.mem_singleton.mp hemit
    rcases calculateUrlConfidence_bounds (sliceStr text.data i q.i) with ⟨hb0, hb1⟩
    exact ⟨emit_span text.data urlRegex s i q hsf hmin, hb0, by linarith,
      Or.inr (Or.inr hb1)⟩
  next => simp at hemit

theorem detectTrackingNumbers_mem (text : String) (fuel : Nat) (l : List PatternMatch)
    (m : PatternMatch) (h : detectTrackingNumbers text fuel = some l) (hm : m ∈ l) :
    EmittedOk m := by
  unfold detectTrackingNumbers at h
  rcases runLoops_mem text.data _ fuel l m h hm with ⟨spec, hspec, s, i, q, hsf, hemit⟩
  rcases List.mem_map.mp hspec with ⟨e, he, rfl⟩
  have hmin : ∀ e ∈ trackingPatterns, 1 ≤ e.2.ast.minLen := by decide
  simp only [trackingEmit] at hemit
  split at hemit
  next hconf =>
    obtain rfl := List.mem_singleton.mp hemit
    rcases calculateTrackingConfidence_bounds (sliceStr text.data i q.i) e.1 with ⟨hb0, hb1⟩
    exact ⟨emit_span text.data e.2 s i q hsf (hmin e he), hb0, by linarith,
      Or.inr (Or.inr hb1)⟩
  next => simp at hemit

theorem detectAddresses_mem (text : String) (fuel : Nat) (l : List PatternMatch)
    (m : PatternMatch) (h : detectAddresses text fuel = some l) (hm : m ∈ l) :
    EmittedOk m := by
  unfold detectAddresses at h
  rcases runLoops_mem text.data _ fuel l m h hm with ⟨spec, hspec, s, i, q, hsf, hemit⟩
  rcases List.mem_append.mp hspec with hsp | hsp
  · rcases List.mem_map.mp hsp with ⟨e, he, rfl⟩
    have hmin : ∀ e ∈ addressPatterns.enum, 1 ≤ e.2.ast.minLen := by decide
    simp only [addressEmit] at hemit
    split at hemit
    next hconf =>
      obtain rfl := List.mem_singleton.mp hemit
      rcases calculateAddressConfidence_bounds (sliceStr text.data i q.i) e.1 with ⟨hb0, hb1⟩
      exact ⟨emit_span text.data e.2 s i q hsf (hmin e he), hb0, by linarith,
        Or.inr (Or.inr hb1)⟩
    next => simp at hemit
  · rcases List.mem_map.mp hsp with ⟨e, he, rfl⟩
    have hmin : ∀ e ∈ internationalAddressPatterns.enum,
        1 ≤ e.2.ast.minLen ∧ e.1 ≤ 9 := by decide
    simp only [postalEmit] at hemit
    split at hemit
    next hconf =>
      obtain rfl := List.mem_singleton.mp hemit
      rcases calculatePostalCodeConfidence_bounds (sliceStr text.data i q.i) e.1
        (hmin e he).2 with ⟨hb0, hb1⟩
      exact ⟨emit_span text.data e.2 s i q hsf (hmin e he).1, hb0, by linarith,
        Or.inr (Or.inr hb1)⟩
    next => simp at hemit

theorem detectDateTime_mem (text : String) (fuel : Nat) (l : List PatternMatch)
    (m : PatternMatch) (h : detectDateTime text fuel = some l) (hm : m ∈ l) :
    EmittedOk m := by
  unfold detectDateTime at h
  rcases runLoops_mem text.data _ fuel l m h hm with ⟨spec, hspec, s, i, q, hsf, hemit⟩
  rcases List.mem_map.mp hspec with ⟨e, he, rfl⟩
  have hmin : ∀ e ∈ dateTimePatterns.enum, 1 ≤ e.2.ast.minLen := by decide
  simp only [dateTimeEmit] at hemit
  split at hemit
  next hconf =>
    obtain rfl := List.mem_singleton.mp hemit
    rcases calculateDateTimeConfidence_bounds (sliceStr text.data i q.i) e.1 with ⟨hb0, hb1⟩
    exact ⟨emit_span text.data e.2 s i q hsf (hmin e he), hb0, by linarith,
      Or.inr (Or.inr hb1)⟩
  next => simp at hemit

theorem detectCurrency_mem (text : String) (fuel : Nat) (l : List PatternMatch)
    (m : PatternMatch) (h : detectCurrency text fuel = some l) (hm : m ∈ l) :
    EmittedOk m := by
  unfold detectCurrency at h
  rcases runLoops_mem text.data _ fuel l m h hm with ⟨spec, hspec, s, i, q, hsf, hemit⟩
  rcases List.mem_map.mp hspec with ⟨e, he, rfl⟩
  have hmin : ∀ e ∈ currencyPatterns.enum, 1 ≤ e.2.ast.minLen ∧ e.1 ≤ 12 := by decide
  simp only [currencyEmit] at hemit
  split at hemit
  next hconf =>
    obtain rfl := List.mem_singleton.mp hemit
    have hq : (e.1 : ℚ) ≤ 12 := by exact_mod_cast (hmin e he).2
    refine ⟨emit_span text.data e.2 s i q hsf (hmin e he).1, ?_, ?_, Or.inl rfl⟩
    · simp only [calculateCurrencyConfidence]; positivity
    · simp only [calculateCurrencyConfidence]; linarith
  next => simp at hemit

theorem detectUnits_mem (text : String) (fuel : Nat) (l : List PatternMatch)
    (m : PatternMatch) (h : detectUnits text fuel = some l) (hm : m ∈ l) : EmittedOk m := by
  unfold detectUnits at h
  rcases runLoops_mem text.data _ fuel l m h hm with ⟨spec, hspec, s, i, q, hsf, hemit⟩
  rcases List.mem_map.mp hspec with ⟨e, he, rfl⟩
  have hmin : ∀ e ∈ unitPatterns.enum, 1 ≤ e.2.ast.minLen ∧ e.1 ≤ 7 := by decide
  simp only [unitEmit] at hemit
  split at hemit
  next hconf =>
    obtain rfl := List.mem_singleton.mp hemit
    have hq : (e.1 : ℚ) ≤ 7 := by exact_mod_cast (hmin e he).2
    refine ⟨emit_span text.data e.2 s i q hsf (hmin e he).1, ?_, ?_,
      Or.inr (Or.inl rfl)⟩
    · simp only [calculateUnitConfidence]; positivity
    · simp only [calculateUnitConfidence]; linarith
  next => simp at hemit

/-! ### The resolver returns a subset of its candidates. -/

theorem dedupe_foldl_subset (l : List PatternMatch) :
    ∀ acc m, m ∈ l.foldl dedupeStep acc → m ∈ acc ∨ m ∈ l := by
  induction l with
  | nil => intro acc m h; simp at h; exact Or.inl h
  | cons p rest ih =>
      intro acc m h
      simp only [List.foldl_cons] at h
      by_cases hc : (acc.any fun existing => patternsOverlap p existing) = true
      · rw [dedupeStep_of_overlap acc p hc] at h
        rcases ih acc m h with h' | h'
        · exact Or.inl h'
        · exact Or.inr (List.mem_cons_of_mem p h')
      · rw [dedupeStep_of_no_overlap acc p hc] at h
        rcases ih _ m h with h' | h'
        · rcases List.mem_append.mp h' with h'' | h''
          · exact Or.inl h''
          · simp only [List.mem_singleton] at h''
            subst h''
            exact Or.inr (List.mem_cons_self m rest)
        · exact Or.inr (List.mem_cons_of_mem p h')

theorem sortAndDeduplicatePatterns_subset (l : List PatternMatch) (m : PatternMatch)
    (h : m ∈ sortAndDeduplicatePatterns l) : m ∈ l := by
  unfold sortAndDeduplicatePatterns at h
  rcases dedupe_foldl_subset _ [] m h with h' | h'
  · simp at h'
  · exact (sortByConfidenceDesc_perm l).mem_iff.mp h'

/-- Every match returned by a completed `detectPatterns` call satisfies
`EmittedOk` (the backbone of the amended C4). -/
theorem detectPatterns_emitted (init : Bool) (text : String) (fuel : Nat)
    (l : List PatternMatch) (h : detectPatterns init text fuel = Except.ok (some l)) :
    ∀ m ∈ l, EmittedOk m := by
  intro m hm
  unfold detectPatterns at h
  by_cases hinit : init = false
  · rw [if_pos hinit] at h; exact absurd h (by simp)
  rw [if_neg hinit] at h
  rw [Except.ok.injEq] at h
  cases he : detectEmails text fuel with
  | none => rw [he] at h; simp at h
  | some emailMatches =>
  cases hp : detectPhoneNumbers text fuel with
  | none => rw [he, hp] at h; simp at h
  | some phoneMatches =>
  cases hu : detectUrls text fuel with
  | none => rw [he, hp, hu] at h; simp at h
  | some urlMatches =>
  cases ht : detectTrackingNumbers text fuel with
  | none => rw [he, hp, hu, ht] at h; simp at h
  | some trackingMatches =>
  cases ha : detectAddresses text fuel with
  | none => rw [he, hp, hu, ht, ha] at h; simp at h
  | some addressMatches =>
  cases hd : detectDateTime text fuel with
  | none => rw [he, hp, hu, ht, ha, hd] at h; simp at h
  | some dateTimeMatches =>
  cases hc : detectCurrency text fuel with
  | none => rw [he, hp, hu, ht, ha, hd, hc] at h; simp at h
  | some currencyMatches =>
  cases hn : detectUnits text fuel with
  | none => rw [he, hp, hu, ht, ha, hd, hc, hn] at h; simp at h
  | some unitMatches =>
  rw [he, hp, hu, ht, ha, hd, hc, hn] at h
  simp only [Option.bind_eq_bind, Option.some_bind, Option.pure_def,
    Option.some.injEq] at h
  subst h
  have hsub := sortAndDeduplicatePatterns_subset _ m hm
  simp only [List.mem_append] at hsub
  rcases hsub with ((((((hx | hx) | hx) | hx) | hx) | hx) | hx) | hx
  · exact detectEmails_mem text fuel _ m he hx
  · exact detectPhoneNumbers_mem text fuel _ m hp hx
  · exact detectUrls_mem text fuel _ m hu hx
  · exact detectTrackingNumbers_mem text fuel _ m ht hx
  · exact detectAddresses_mem text fuel _ m ha hx
  · exact detectDateTime_mem text fuel _ m hd hx
  · exact detectCurrency_mem text fuel _ m hc hx
  · exact detectUnits_mem text fuel _ m hn hx

/-! ### Loop termination and divergence lemmas. -/

/-- A non-global regex that matches somewhere makes its `while (exec)` loop
spin forever: `exec` never advances `lastIndex`, so every iteration finds
the same match again. -/
theorem execLoop_nonglobal_diverges (re : JsRegex) (text : List Char)
    (emit : Nat → MState → List PatternMatch) (hg : re.global = false)
    (hm : (searchFrom re.ci re.ast text 0).isSome = true) :
    ∀ fuel li, execLoop re text emit fuel li = none := by
  intro fuel
  induction fuel with
  | zero => intro li; rfl
  | succ f ih =>
      intro li
      simp only [execLoop, hg, Bool.false_eq_true, if_false]
      cases hs : searchFrom re.ci re.ast text 0 with
      | none => simp [hs] at hm
      | some iq =>
          obtain ⟨i, q⟩ := iq
          simp [hg, ih li]

/-- A loop whose regex does not match the subject at all finishes in its
first iteration with no candidates. -/
theorem execLoop_no_match (re : JsRegex) (text : List Char)
    (emit : Nat → MState → List PatternMatch) (fuel : Nat)
    (h : searchFrom re.ci re.ast text 0 = none) :
    execLoop re text emit (fuel + 1) 0 = some [] := by
  simp only [execLoop, ite_self, h]

/-- A detector none of whose patterns match returns no candidates (with any
positive loop budget). -/
theorem runLoops_no_match (text : List Char) (fuel : Nat) :
    ∀ specs : List LoopSpec,
      specs.all (fun spec => (searchFrom spec.re.ci spec.re.ast text 0).isNone) = true →
      runLoops text (fuel + 1) specs = some [] := by
  intro specs
  induction specs with
  | nil => intro _; rfl
  | cons spec rest ih =>
      intro h
      simp only [List.all_cons, Bool.and_eq_true] at h
      have h0 : searchFrom spec.re.ci spec.re.ast text 0 = none :=
        Option.isNone_iff_eq_none.mp h.1
      simp only [runLoops, execLoop_no_match spec.re text spec.emit fuel h0, ih h.2]
      rfl

/-- If any of a detector's loops fails to finish, the whole detector call
fails to finish. -/
theorem runLoops_none_of_mem (text : List Char) (fuel : Nat) :
    ∀ specs : List LoopSpec, ∀ spec ∈ specs,
      execLoop spec.re text spec.emit fuel 0 = none →
      runLoops text fuel specs = none := by
  intro specs
  induction specs with
  | nil => intro spec h; simp at h
  | cons s rest ih =>
      intro spec hmem hn
      rcases List.mem_cons.mp hmem with rfl | hmem'
      · simp only [runLoops, hn]
      · simp only [runLoops]
        cases he : execLoop s.re text s.emit fuel 0 with
        | none => rfl
        | some ms => rw [ih spec hmem' hn]; rfl

/-- A thrown detector error survives candidate collection. -/
theorem collectCandidates_error (e : String) :
    ∀ outcomes : List (Except String (List PatternMatch)), Except.error e ∈ outcomes →
      ∃ e', collectCandidates outcomes = Except.error e' := by
  intro outcomes
  induction outcomes with
  | nil => intro h; simp at h
  | cons o rest ih =>
      intro h
      rcases List.mem_cons.mp h with rfl | hmem
      · exact ⟨e, rfl⟩
      · cases o with
        | error e2 => exact ⟨e2, rfl⟩
        | ok ms =>
            rcases ih hmem with ⟨e', he'⟩
            exact ⟨e', by simp [collectCandidates, he', Except.map]⟩

/-! ## Claim theorems -/

/-- C1: for every list of candidate `PatternMatch` values,
`sortAndDeduplicatePatterns` returns a list in which no two matches overlap
under `¬(a.end ≤ b.start ∨ b.end ≤ a.start)`, the returned list is ordered
by confidence descending, and no candidate is dropped in favor of a kept
overlapping candidate of strictly lower confidence: every dropped candidate
overlaps some kept candidate of confidence at least its own. -/
theorem C1_conflict_resolver_correct (l : List PatternMatch) :
    List.Pairwise (fun a b => patternsOverlap a b = false) (sortAndDeduplicatePatterns l) ∧
    List.Sorted (fun a b => b.confidence ≤ a.confidence) (sortAndDeduplicatePatterns l) ∧
    (∀ c ∈ l, c ∉ sortAndDeduplicatePatterns l →
      ∃ k ∈ sortAndDeduplicatePatterns l,
        patternsOverlap c k = true ∧ c.confidence ≤ k.confidence) := by
  refine ⟨?_, ?_, ?_⟩
  · simpa [sortAndDeduplicatePatterns] using
      dedupe_foldl_pairwise (sortByConfidenceDesc l) [] (by simp)
  · simpa [sortAndDeduplicatePatterns] using
      dedupe_foldl_sorted (sortByConfidenceDesc l) []
        (sortByConfidenceDesc_sorted l) (by simp) (by simp)
  · intro c hc hcn
    have hc' := (sortByConfidenceDesc_perm l).mem_iff.mpr hc
    simpa [sortAndDeduplicatePatterns] using
      dedupe_foldl_covered (sortByConfidenceDesc l) [] (by simp)
        (sortByConfidenceDesc_sorted l) c hc'
        (by simpa [sortAndDeduplicatePatterns] using hcn)

/-- Witness for C1 at a concrete input: two overlapping candidates of
confidence 0.9 and 0.8 — the weaker is dropped, and the resolver keeps an
overlapping candidate of no smaller confidence. -/
theorem C1_conflict_resolver_correct_witness :
    ∃ k ∈ sortAndDeduplicatePatterns
        [⟨PatternType.url, "b.co", 0.8, 2, 6, []⟩,
         ⟨PatternType.email, "a@b.co", 0.9, 0, 6, []⟩],
      patternsOverlap ⟨PatternType.url, "b.co", 0.8, 2, 6, []⟩ k = true ∧
        (⟨PatternType.url, "b.co", 0.8, 2, 6, []⟩ : PatternMatch).confidence ≤ k.confidence :=
  (C1_conflict_resolver_correct
      [⟨PatternType.url, "b.co", 0.8, 2, 6, []⟩,
       ⟨PatternType.email, "a@b.co", 0.9, 0, 6, []⟩]).2.2
    ⟨PatternType.url, "b.co", 0.8, 2, 6, []⟩ (by with_unfolding_all decide)
    (by with_unfolding_all decide)

/-- C2: the claim says every detector loop terminates, in particular on an
exact UPS `1Z` number and an exact http(s) URL.  The code does the
opposite: those two regexes carry no `g` flag, so `exec` restarts at index
0 every iteration and the matching loop never exits — for every iteration
budget, `detectTrackingNumbers` on a `1Z` number and `detectUrls` on an
https URL fail to finish, and so does the whole `detectPatterns` call. -/
theorem C2_matching_nonglobal_loops_diverge :
    (∀ fuel : Nat, detectTrackingNumbers "1Z999AA10123456784" fuel = none) ∧
    (∀ fuel : Nat, detectUrls "https://example.com" fuel = none) ∧
    (∀ fuel : Nat, detectPatterns true "1Z999AA10123456784" fuel = Except.ok none) := by
  have htrack : ∀ fuel : Nat, detectTrackingNumbers "1Z999AA10123456784" fuel = none := by
    intro fuel
    unfold detectTrackingNumbers
    simp only [trackingPatterns, List.map_cons]
    exact runLoops_none_of_mem _ fuel _ _ (List.mem_cons_self _ _)
      (execLoop_nonglobal_diverges _ _ _ rfl (by decide) fuel 0)
  have hurl : ∀ fuel : Nat, detectUrls "https://example.com" fuel = none := by
    intro fuel
    unfold detectUrls
    exact runLoops_none_of_mem _ fuel _ _ (List.mem_cons_self _ _)
      (execLoop_nonglobal_diverges _ _ _ rfl (by decide) fuel 0)
  refine ⟨htrack, hurl, ?_⟩
  intro fuel
  unfold detectPatterns
  rw [if_neg (by simp)]
  cases he : detectEmails "1Z999AA10123456784" fuel with
  | none => simp [he]
  | some a =>
    cases hp : detectPhoneNumbers "1Z999AA10123456784" fuel with
    | none => simp [he, hp]
    | some b =>
      cases hu : detectUrls "1Z999AA10123456784" fuel with
      | none => simp [he, hp, hu]
      | some c => simp [he, hp, hu, htrack fuel]

/-- C3: the claim says a PHONE pattern yields both CALL and MESSAGE when
both are enabled, and exactly the disabled one is excluded otherwise.  The
code's `getActionForPattern` returns `callAction || messageAction || null`
— a single action — so with everything enabled the result is only
`[copy, search, call]`; and when CALL is disabled via preferences while
MESSAGE stays enabled, the (still returned) CALL object fails the enabled
check and neither phone action appears. -/
theorem C3_phone_yields_only_call :
    ((getAvailableActions true defaultActions
        [⟨PatternType.phone, "(555) 123-4567", 0.95, 0, 14, []⟩]).map QuickAction.id =
      ["copy", "search", "call"]) ∧
    (((updateActionAvailabilityFromPreferences defaultActions
        ["copy", "search", "message"]).find? (fun a => a.type == ActionType.message)).map
        QuickAction.enabled = some true) ∧
    ((getAvailableActions true
        (updateActionAvailabilityFromPreferences defaultActions ["copy", "search", "message"])
        [⟨PatternType.phone, "(555) 123-4567", 0.95, 0, 14, []⟩]).map QuickAction.id =
      ["copy", "search"]) := by
  exact ⟨rfl, rfl, rfl⟩

/-- C4 (counterexample): `"₹100"` survives detection as a CURRENCY match of
confidence exactly 1.0 — the currency score `0.8 + patternIndex·0.05` is
not clamped, refuting "clamped to at most 0.95 (never equal to 1.0)". -/
theorem C4_counterexample_confidence_reaches_one :
    (detectPatterns true "₹100" 5).map (fun o => o.map (List.map
        (fun m => (m.type, m.confidence)))) =
      Except.ok (some [(PatternType.currency, (1 : ℚ))]) ∧
    (0.95 : ℚ) < 1 := by
  exact ⟨by with_unfolding_all rfl, by norm_num⟩

/-- C4 (amended): every `PatternMatch` emitted by a completed
`detectPatterns` call satisfies `startIndex < endIndex` and has confidence
never negative, but the 0.95 clamp holds only outside the CURRENCY and
UNIT categories, whose unclamped `0.8 + patternIndex·0.05` scores reach
1.0 and beyond (bounded by 1.4 over the thirteen currency patterns). -/
theorem C4_amended_span_and_confidence (init : Bool) (text : String) (fuel : Nat)
    (l : List PatternMatch) (h : detectPatterns init text fuel = Except.ok (some l)) :
    ∀ m ∈ l, m.startIndex < m.endIndex ∧ 0 ≤ m.confidence ∧ m.confidence ≤ 1.4 ∧
      ((m.type ≠ PatternType.currency ∧ m.type ≠ PatternType.unit) →
        m.confidence ≤ 0.95) := by
  intro m hm
  rcases detectPatterns_emitted init text fuel l h m hm with ⟨h1, h2, h3, h4⟩
  refine ⟨h1, h2, h3, fun hne => ?_⟩
  rcases h4 with h4 | h4 | h4
  · exact absurd h4 hne.1
  · exact absurd h4 hne.2
  · exact h4

/-- Witness for the amended C4 at a concrete input: the `"€100"` run. -/
theorem C4_amended_span_and_confidence_witness :
    euro100Match.startIndex < euro100Match.endIndex ∧ 0 ≤ euro100Match.confidence ∧
      euro100Match.confidence ≤ 1.4 ∧
      ((euro100Match.type ≠ PatternType.currency ∧ euro100Match.type ≠ PatternType.unit) →
        euro100Match.confidence ≤ 0.95) :=
  C4_amended_span_and_confidence true "€100" 5 [euro100Match]
    (by with_unfolding_all rfl) euro100Match (List.mem_singleton.mpr rfl)

/-- C5 (counterexample): with the first detector outcome a thrown error and
the second a detector that found one match, `detectPatterns`'s single
try/catch returns `[]` — not the non-failing detector's matches, which the
resolver would have kept — refuting the per-detector fail-open claim. -/
theorem C5_counterexample_fail_closed :
    detectPatternsTryCatch
        [Except.error "detector threw",
         Except.ok [⟨PatternType.email, "a@b.co", 0.9, 0, 6, []⟩]] = [] ∧
    sortAndDeduplicatePatterns [⟨PatternType.email, "a@b.co", 0.9, 0, 6, []⟩] =
      [⟨PatternType.email, "a@b.co", 0.9, 0, 6, []⟩] ∧
    ([] : List PatternMatch) ≠ [⟨PatternType.email, "a@b.co", 0.9, 0, 6, []⟩] := by
  refine ⟨rfl, rfl, by decide⟩

/-- C5 (amended): the `try` block of `detectPatterns` spans all eight
detector calls, so a detector that throws suppresses every detector's
candidates: whenever any outcome is an error, the call returns `[]`
(fail-closed for the whole scan, not per-detector). -/
theorem C5_amended_error_returns_empty
    (outcomes : List (Except String (List PatternMatch))) (e : String)
    (h : Except.error e ∈ outcomes) : detectPatternsTryCatch outcomes = [] := by
  rcases collectCandidates_error e outcomes h with ⟨e', he'⟩
  unfold detectPatternsTryCatch
  rw [he']

/-- Witness for the amended C5 at a concrete input. -/
theorem C5_amended_error_returns_empty_witness :
    detectPatternsTryCatch
        [Except.error "boom", Except.ok [⟨PatternType.email, "a@b.co", 0.9, 0, 6, []⟩]] =
      [] :=
  C5_amended_error_returns_empty _ "boom" (List.mem_cons_self _ _)

/-- C6: the claim (and the repository's own tests) say `"$100"` yields a
CURRENCY match with code USD.  The `$`-pattern sits at index 0, so its
confidence is exactly `0.8`, which fails the strict `> 0.8` emission test:
`"$100"` produces no match at all.  `"€100"` (index 1, confidence 0.85)
does yield a CURRENCY match with `metadata.code = "EUR"`. -/
theorem C6_dollar_dropped_euro_detected :
    detectPatterns true "$100" 5 = Except.ok (some []) ∧
    calculateCurrencyConfidence "$100" 0 = 0.8 ∧
    ((detectPatterns true "€100" 5).map (fun o => o.map (List.map
        (fun m => (m.type, List.lookup "code" m.metadata)))) =
      Except.ok (some [(PatternType.currency, some (MetaVal.str "EUR"))])) := by
  refine ⟨by with_unfolding_all rfl, by norm_num [calculateCurrencyConfidence],
    by with_unfolding_all rfl⟩

/-- C7: on the initialized catalog with its static defaults (COPY and
SEARCH enabled), resolving the empty pattern list returns exactly COPY then
SEARCH; after a preference update that enables nothing, it returns `[]`. -/
theorem C7_empty_pattern_list_universal_actions :
    ((getAvailableActions true defaultActions []).map (fun a => (a.id, a.type)) =
      [("copy", ActionType.copy), ("search", ActionType.search)]) ∧
    getAvailableActions true (updateActionAvailabilityFromPreferences defaultActions []) []
      = [] := by
  exact ⟨rfl, rfl⟩

/-- C8: the claim (and the repository's own tests) say `"test@example.com"`
yields exactly one EMAIL match spanning `[0,16)` with domain
`example.com`.  The email detector does produce that candidate, but the
currency pattern `[\d\s.]+(?:,\d{2})?\s*[A-Z]{3}` (index 12, case
insensitive) also matches `".com"` with unclamped confidence 1.4, and
conflict resolution keeps the higher-confidence junk and drops the
overlapping email: the call returns exactly one CURRENCY match `".com"`. -/
theorem C8_email_displaced_by_currency_match :
    ((detectPatterns true "test@example.com" 5).map (fun o => o.map (List.map
        (fun m => (m.type, m.text, m.confidence, m.startIndex, m.endIndex)))) =
      Except.ok (some [(PatternType.currency, ".com", 1.4, 12, 16)])) ∧
    ((detectEmails "test@example.com" 5).map (List.map
        (fun m => (m.type, m.text, m.confidence, m.startIndex, m.endIndex,
          List.lookup "domain" m.metadata))) =
      some [(PatternType.email, "test@example.com", 0.9, 0, 16,
        some (MetaVal.str "example.com"))]) := by
  exact ⟨by with_unfolding_all rfl, by with_unfolding_all rfl⟩

/-- C9: the claim says `detectPatterns` throws before `initialize()` (true),
returns `[]` for the empty input (true), and returns `[]` for any input in
which no detector emits a candidate.  The last part fails: on
`"ABCDEFGHIJ"` every detector family emits nothing — each family either
finds no match at all or, for the tracking detector, only the non-global
`Generic` shape `^[0-9A-Z]{10,25}$` matches, whose candidate is filtered
out by the strict `> 0.8` cutoff — yet that same non-global match makes
the `exec` loop spin forever, so the call never returns at all. -/
theorem C9_uninitialized_empty_and_nonreturning :
    detectPatterns false "ABCDEFGHIJ" 5 = Except.error notInitializedMsg ∧
    (∀ fuel : Nat, detectPatterns true "" (fuel + 1) = Except.ok (some [])) ∧
    (∀ fuel : Nat,
      detectEmails "ABCDEFGHIJ" (fuel + 1) = some [] ∧
      detectPhoneNumbers "ABCDEFGHIJ" (fuel + 1) = some [] ∧
      detectUrls "ABCDEFGHIJ" (fuel + 1) = some [] ∧
      detectAddresses "ABCDEFGHIJ" (fuel + 1) = some [] ∧
      detectDateTime "ABCDEFGHIJ" (fuel + 1) = some [] ∧
      detectCurrency "ABCDEFGHIJ" (fuel + 1) = some [] ∧
      detectUnits "ABCDEFGHIJ" (fuel + 1) = some []) ∧
    (∀ fuel : Nat, detectTrackingNumbers "ABCDEFGHIJ" fuel = none) ∧
    (∀ fuel : Nat, detectPatterns true "ABCDEFGHIJ" fuel = Except.ok none) := by
  have htrack : ∀ fuel : Nat, detectTrackingNumbers "ABCDEFGHIJ" fuel = none := by
    intro fuel
    unfold detectTrackingNumbers
    refine runLoops_none_of_mem _ fuel _
      ⟨⟨"^[0-9A-Z]\x7b10,25\x7d$", anch (rrange (cls [i09, iAZ]) 10 25), false, false⟩,
        trackingEmit "ABCDEFGHIJ".data "Generic" "^[0-9A-Z]\x7b10,25\x7d$"⟩
      (List.mem_map.mpr ⟨("Generic",
        ⟨"^[0-9A-Z]\x7b10,25\x7d$", anch (rrange (cls [i09, iAZ]) 10 25), false, false⟩),
        by decide, rfl⟩)
      (execLoop_nonglobal_diverges _ _ _ rfl (by decide) fuel 0)
  refine ⟨rfl, ?_, ?_, htrack, ?_⟩
  · intro fuel
    unfold detectPatterns
    rw [if_neg (by simp)]
    have he : detectEmails "" (fuel + 1) = some [] := by
      unfold detectEmails; exact runLoops_no_match _ fuel _ (by decide)
    have hp : detectPhoneNumbers "" (fuel + 1) = some [] := by
      unfold detectPhoneNumbers; exact runLoops_no_match _ fuel _ (by decide)
    have hu : detectUrls "" (fuel + 1) = some [] := by
      unfold detectUrls; exact runLoops_no_match _ fuel _ (by decide)
    have ht : detectTrackingNumbers "" (fuel + 1) = some [] := by
      unfold detectTrackingNumbers; exact runLoops_no_match _ fuel _ (by decide)
    have ha : detectAddresses "" (fuel + 1) = some [] := by
      unfold detectAddresses; exact runLoops_no_match _ fuel _ (by decide)
    have hd : detectDateTime "" (fuel + 1) = some [] := by
      unfold detectDateTime; exact runLoops_no_match _ fuel _ (by decide)
    have hc : detectCurrency "" (fuel + 1) = some [] := by
      unfold detectCurrency; exact runLoops_no_match _ fuel _ (by decide)
    have hn : detectUnits "" (fuel + 1) = some [] := by
      unfold detectUnits; exact runLoops_no_match _ fuel _ (by decide)
    simp [he, hp, hu, ht, ha, hd, hc, hn]
    rfl
  · intro fuel
    refine ⟨?_, ?_, ?_, ?_, ?_, ?_, ?_⟩ <;>
      first
        | (unfold detectEmails; exact runLoops_no_match _ fuel _ (by decide))
        | (unfold detectPhoneNumbers; exact runLoops_no_match _ fuel _ (by decide))
        | (unfold detectUrls; exact runLoops_no_match _ fuel _ (by decide))
        | (unfold detectAddresses; exact runLoops_no_match _ fuel _ (by decide))
        | (unfold detectDateTime; exact runLoops_no_match _ fuel _ (by decide))
        | (unfold detectCurrency; exact runLoops_no_match _ fuel _ (by decide))
        | (unfold detectUnits; exact runLoops_no_match _ fuel _ (by decide))
  · intro fuel
    unfold detectPatterns
    rw [if_neg (by simp)]
    cases he : detectEmails "ABCDEFGHIJ" fuel with
    | none => simp [he]
    | some a =>
      cases hp : detectPhoneNumbers "ABCDEFGHIJ" fuel with
      | none => simp [he, hp]
      | some b =>
        cases hu : detectUrls "ABCDEFGHIJ" fuel with
        | none => simp [he, hp, hu]
        | some c => simp [he, hp, hu, htrack fuel]

/-- C10: with the static defaults of the initialized catalog, the CALENDAR
action's `enabled` flag is `FEATURE_FLAGS.AI_PARSING`, which is `false`, so
a DATE_TIME-only pattern list resolves to just the enabled universal COPY
and SEARCH actions. -/
theorem C10_calendar_disabled_by_default :
    FEATURE_FLAGS_AI_PARSING = false ∧
    ((defaultActions.find? (fun a => a.type == ActionType.calendar)).map QuickAction.enabled =
      some FEATURE_FLAGS_AI_PARSING) ∧
    ((getAvailableActions true defaultActions
        [⟨PatternType.dateTime, "Jan 15, 2024", 0.7, 0, 12, []⟩]).map
        (fun a => (a.id, a.type)) =
      [("copy", ActionType.copy), ("search", ActionType.search)]) := by
  exact ⟨rfl, rfl, rfl⟩

end Quickbeam
